import Mathlib

/-!
# ibootutil (`main.c`): the USB control-transfer protocol

A shallow embedding of `main.c`: the command, status and file-upload protocols, the
interactive shell loop and the command-line driver, followed by theorems about them.

Modelling conventions.

* The USB device, the file system and the terminal are the environment (`Env`).  The device
  is a *script*: `env.script n` is what the device answers to the `n`-th `DeviceRequest`
  issued by the process (whether the transfer succeeded, and the six bytes found in the
  status buffer afterwards).  Every request issued is appended to `State.trace`, every
  line printed to `State.out`.
* C integers are natural numbers or integers with explicit wrap-around at the width of
  the C type: `unsigned int` is 32 bits; the fields `wValue`, `wIndex` and `wLength` of an
  `IOUSBDevRequest` are `UInt16`; `char` is a signed 8-bit type, as on every Darwin target
  (the program is built against IOKit and CoreFoundation).
* A run against a device whose answers depend on the requests it received is the run
  against the script of the answers it gave, since the requests are determined by the
  answers before them; statements quantified over every script cover every device.
* A C string is the list of bytes stored from the pointer on; the string ends at the first
  NUL byte or, when there is none, at the end of the list (the terminator is implied).
-/

namespace IBootUtil

/-! ## Bytes, C strings and the C library -/

/-- One byte of memory. -/
abbrev Byte := Fin 256

/-- The memory a `const char *` points to: the string ends at the first NUL byte, or at the
end of the list. -/
abbrev CString := List Byte

/-- A string literal of the source, as bytes (without its terminator). -/
def ascii (s : String) : CString := s.toList.map (fun c => Fin.ofNat c.toNat)

/-- The text of a C string: the bytes before the terminator. -/
def text : CString → List Byte
  | [] => []
  | b :: bs => if b = 0 then [] else b :: text bs

/-- The libc `strlen`: the number of bytes before the terminator. -/
def strlen (s : CString) : Nat := (text s).length

/-- The libc `strcmp`: bytes are compared as `unsigned char` up to the first difference or
the terminator of both strings. -/
def strcmp : CString → CString → Int
  | [], [] => 0
  | [], b :: _ => -(b.val : Int)
  | a :: _, [] => (a.val : Int)
  | a :: as, b :: bs =>
    if a = b then (if a = 0 then 0 else strcmp as bs) else (a.val : Int) - (b.val : Int)

/-- Whether the text of `needle` stands at the very start of `hay`. -/
def startsWith : CString → CString → Bool
  | _, [] => true
  | [], n :: _ => decide (n = 0)
  | h :: hs, n :: ns =>
    if n = 0 then true else if h = 0 then false else (decide (h = n) && startsWith hs ns)

/-- The libc `strstr`: the offset of the first occurrence of `needle` in `hay`, `none` for
a NULL result. -/
def strstr : CString → CString → Option Nat
  | [], needle => if startsWith [] needle then some 0 else none
  | h :: hs, needle =>
    if startsWith (h :: hs) needle then some 0
    else if h = 0 then none
    else (strstr hs needle).map (· + 1)

/-- The libc `fread(ptr, size, nmemb, stream)` on a stream that can still deliver `avail`
bytes: the number of complete items read, which is zero when `size` or `nmemb` is zero. -/
def fread (size nmemb avail : Nat) : Nat :=
  if size = 0 ∨ nmemb = 0 then 0 else min nmemb (avail / size)

/-- Conversion to `UInt16`. -/
def toUInt16 (n : Nat) : Nat := n % 65536

/-- Conversion to `unsigned int` / `uint32_t`. -/
def toUInt32 (n : Nat) : Nat := n % 4294967296

/-- Conversion of a `long` or an `unsigned int` to `int`. -/
def toInt32 (z : Int) : Int := (z + 2147483648) % 4294967296 - 2147483648

/-- The value of a `char` holding the byte `b`, promoted to `int` (`char` is signed). -/
def schar (b : Byte) : Int := if b.val < 128 then (b.val : Int) else (b.val : Int) - 256

/-! ## Constants of `main.c` -/

def RECOVERY : Nat := 0x1281
def DFU : Nat := 0x1227
def REQUEST_COMMAND : Nat := 0x40
def REQUEST_FILE : Nat := 0x21
def REQUEST_STATUS : Nat := 0xA1
def RESPONSE_PIPE : Nat := 0x81

/-! ## Requests, the environment and the process state -/

/-- The buffer `pData` points to. -/
inductive PData where
  /-- The command string. -/
  | str (s : CString)
  /-- The local `char response[6]` of `iDevice_request_status`. -/
  | response
  /-- The address `&buf[offset]` in the file buffer of `iDevice_send_file`. -/
  | buf (offset : Nat)
  deriving DecidableEq, Repr

/-- The fields of an `IOUSBDevRequest`. -/
structure IOUSBDevRequest where
  bmRequestType : Nat
  bRequest : Nat
  wValue : Nat
  wIndex : Nat
  wLength : Nat
  pData : PData
  wLenDone : Nat
  deriving DecidableEq, Repr

/-- What the device answers to one `DeviceRequest`: whether the call returned
`kIOReturnSuccess`, and the six bytes of the status buffer after the call. -/
structure Resp where
  ok : Bool
  data : Fin 6 → Byte

/-- One call of `printf` (format string and argument) or of `CFShow`. -/
inductive Msg where
  | line (s : String)
  | fmtInt (fmt : String) (a : Int)
  | fmtInt2 (fmt : String) (a b : Int)
  | fmtStr (fmt : String) (s : CString)
  | cfShow (s : CString)
  deriving DecidableEq, Repr

/-- What `stat`, `fopen` and `fread` report for one path. -/
structure FileEnt where
  /-- The `st_size` found by `stat`, `none` when `stat` fails. -/
  st_size : Option Nat
  /-- Whether `fopen(path, "r")` returns a stream. -/
  canOpen : Bool
  /-- The number of bytes the stream delivers. -/
  avail : Nat

/-- The fields of `struct iBootUSBConnection` that the program reads back. -/
structure Connection where
  name : Option CString
  serial : Option CString
  idProduct : Nat
  deriving DecidableEq, Repr

/-- The environment of one run of the process. -/
structure Env where
  /-- The answer of the device to the `n`-th request issued. -/
  script : Nat → Resp
  /-- The file system. -/
  files : CString → FileEnt
  /-- The device found and opened for a product id: `none` when no device matches or
  it cannot be opened, else its product name and serial number properties. -/
  device : Nat → Option (Option CString × Option CString)
  /-- The libc `strtol(s, NULL, 16)`. -/
  strtol16 : CString → Int
  /-- The lines `readline` returns, in order. -/
  lines : List CString

/-- The observable state of the process. -/
structure State where
  /-- The requests issued so far, oldest first. -/
  trace : List IOUSBDevRequest
  /-- The lines printed so far, oldest first. -/
  out : List Msg
  /-- Whether `iDevice_close` has released the connection. -/
  closed : Bool
  /-- The number of `ResetDevice` calls. -/
  resets : Nat
  deriving DecidableEq, Repr

/-- The state at process start. -/
def State.init : State := { trace := [], out := [], closed := false, resets := 0 }

/-- How a function that may call `exit` ends. -/
inductive Outcome (α : Type) where
  /-- The function returned a value. -/
  | ret (a : α) (st : State)
  /-- The process ended through `exit(code)`. -/
  | exit (code : Nat) (st : State)
  /-- The process is blocked in `readline`, every line of the environment consumed. -/
  | awaiting (st : State)
  deriving DecidableEq, Repr

/-- One `printf` or `CFShow`. -/
def printf (m : Msg) (st : State) : State := { st with out := st.out ++ [m] }

/-- The call `(*deviceHandle)->DeviceRequest(deviceHandle, &request)`. -/
def DeviceRequest (env : Env) (request : IOUSBDevRequest) (st : State) : Resp × State :=
  (env.script st.trace.length, { st with trace := st.trace ++ [request] })

/-- The bytes an outbound request puts on the wire: `wLength` bytes from `pData` on.  For a
command string these are bytes of the string and of its terminator. -/
def wirePayload (request : IOUSBDevRequest) : Option (List Byte) :=
  match request.pData with
  | .str s => some ((text s ++ [0]).take request.wLength)
  | _ => none

/-! ## `iDevice_print`, `iDevice_open`, `iDevice_close` -/

def iDevice_print (connection : Option Connection) (st : State) : State :=
  match connection with
  | none => st
  | some c =>
    match c.name, c.serial with
    | some n, some s => printf (.cfShow s) (printf (.cfShow n) st)
    | _, _ => st

def iDevice_open (env : Env) (productID : Nat) (st : State) : Option Connection × State :=
  match env.device productID with
  | none => (none, st)
  | some (productName, productSerial) =>
    let connection : Connection :=
      { name := productName, serial := productSerial, idProduct := productID }
    (some connection, iDevice_print (some connection) st)

def iDevice_close (connection : Option Connection) (st : State) : State :=
  match connection with
  | none => st
  | some _ => { st with closed := true }

/-! ## `iDevice_send_command` -/

def iDevice_send_command (env : Env) (connection : Option Connection)
    (command : Option CString) (st : State) : Outcome Int :=
  match connection, command with
  | some _, some cmd =>
    let request : IOUSBDevRequest :=
      { bmRequestType := REQUEST_COMMAND, bRequest := 0x0, wValue := 0x0, wIndex := 0x0,
        wLength := toUInt16 (strlen cmd + 1), pData := .str cmd, wLenDone := 0x0 }
    let r := DeviceRequest env request st
    if r.1.ok = false then
      if strcmp cmd (ascii "reboot") ≠ 0 then
        .ret (-1) (printf (.line "Error sending command\n") r.2)
      else
        .exit 0 (iDevice_close connection (printf (.line "Rebooting device...\n") r.2))
    else
      .ret 0 (printf (.fmtStr "Sent command: %s\n" cmd) r.2)
  | _, _ => .ret (-1) st

/-! ## `iDevice_request_status` -/

/-- The request built by `iDevice_request_status`. -/
def status_request : IOUSBDevRequest :=
  { bmRequestType := REQUEST_STATUS, bRequest := 0x3, wValue := 0x0, wIndex := 0x0,
    wLength := 0x6, pData := .response, wLenDone := 0x0 }

def iDevice_request_status (env : Env) (connection : Option Connection) (flag : Int)
    (st : State) : Int × State :=
  match connection with
  | none => (-1, st)
  | some _ =>
    let r := DeviceRequest env status_request st
    if r.1.ok = false then
      (-1, printf (.line "Error: couldn't receive status\n") r.2)
    else if schar (r.1.data 4) ≠ flag then
      (-1, printf (.line "Error: invalid status response\n") r.2)
    else
      (0, r.2)

/-! ## `iDevice_send_file` -/

/-- The local `packet_size`. -/
def packet_size : Nat := 0x800

/-- The value of the `unsigned int packets` computed from `check.st_size`. -/
def packetCount (st_size : Nat) : Nat :=
  let packets := toUInt32 (st_size / packet_size)
  if st_size % packet_size ≠ 0 then toUInt32 (packets + 1) else packets

/-- The local `size` of the loop body for packet `current`. -/
def packetLength (st_size packets current : Nat) : Nat :=
  if toUInt32 (current + 1) < packets then packet_size else st_size % packet_size

/-- The request built in the loop body for packet `current`. -/
def file_request (st_size packets current : Nat) : IOUSBDevRequest :=
  { bmRequestType := REQUEST_FILE, bRequest := 0x1, wValue := toUInt16 current, wIndex := 0x0,
    wLength := toUInt16 (packetLength st_size packets current),
    pData := .buf (toUInt32 (current * packet_size)), wLenDone := 0x0 }

/-- The request built after the loop, `current` being the value the loop left. -/
def checkup (current : Nat) : IOUSBDevRequest :=
  { bmRequestType := REQUEST_FILE, bRequest := 0x1, wValue := toUInt16 current, wIndex := 0x0,
    wLength := 0x0, pData := .buf 0, wLenDone := 0x0 }

/-- How the packet loop ends. -/
inductive LoopResult where
  /-- A `return -1` inside the loop. -/
  | aborted (st : State)
  /-- The loop condition failed, `current` holding the given value. -/
  | finished (current : Nat) (st : State)
  deriving DecidableEq, Repr

/-- The loop `for(current = 0; current < packets; ++current)`.  `current` starts at zero and
grows by one, so the body runs `packets` times unless it returns; the first argument is the
number of iterations left, `packets - current`. -/
def send_packets (env : Env) (connection : Option Connection) (st_size packets : Nat) :
    Nat → Nat → State → LoopResult
  | 0, current, st => .finished current st
  | left + 1, current, st =>
    let r := DeviceRequest env (file_request st_size packets current) st
    if r.1.ok = false then
      .aborted (printf (.fmtInt "Error: couldn't send packet %d\n" (toUInt32 (current + 1))) r.2)
    else
      let s := iDevice_request_status env connection 5 r.2
      if s.1 ≠ 0 then .aborted s.2
      else send_packets env connection st_size packets left (toUInt32 (current + 1)) s.2

/-- The statements of `iDevice_send_file` after the packet loop, `current` being the value
the loop left: the `checkup` request, whose result is not looked at, and the loop
`for(current = 6; current < 8; ++current)` of two status polls. -/
def send_file_finish (env : Env) (connection : Option Connection) (p : CString)
    (current : Nat) (st : State) : Int × State :=
  let r := DeviceRequest env (checkup current) st
  let s6 := iDevice_request_status env connection 6 r.2
  if s6.1 ≠ 0 then (-1, s6.2)
  else
    let s7 := iDevice_request_status env connection 7 s6.2
    if s7.1 ≠ 0 then (-1, s7.2)
    else (0, printf (.fmtStr "Sent file %s\n" p) s7.2)

def iDevice_send_file (env : Env) (connection : Option Connection) (path : Option CString)
    (st : State) : Int × State :=
  match connection, path with
  | some _, some p =>
    match (env.files p).st_size with
    | none => (-1, printf (.fmtStr "File doesn't exist: %s\n" p) st)
    | some st_size =>
      if (env.files p).canOpen = false then
        (-1, printf (.fmtStr "Couldn't open file: %s\n" p) st)
      else if fread st_size 1 (env.files p).avail = 0 then
        (-1, printf (.line "Couldn't create buffer\n") st)
      else
        let packets := packetCount st_size
        match send_packets env connection st_size packets packets 0 st with
        | .aborted st1 => (-1, st1)
        | .finished current st1 => send_file_finish env connection p current st1
  | _, _ => (-1, st)

/-! ## `iDevice_reset`, `iDevice_start_shell`, `iDevice_run_script` -/

def iDevice_reset (connection : Option Connection) (st : State) : Outcome Unit :=
  match connection with
  | none => .ret () st
  | some _ => .exit 0 (iDevice_close connection { st with resets := st.resets + 1 })

/-- One pass through the body of the `do ... while(1)` loop, `input` being the line
`readline` returned.  `.ret` means that the loop goes on to the next `readline`. -/
def shell_iteration (env : Env) (connection : Option Connection) (input : CString)
    (st : State) : Outcome Unit :=
  -- input[0] == '/'
  if input.headD 0 = 47 then
    if strcmp input (ascii "/exit") = 0 then
      .exit 0 (iDevice_close connection st)
    else if strcmp input (ascii "/reset") = 0 then
      match iDevice_reset connection st with
      | .ret _ st1 => .exit 0 st1
      | o => o
    else if (strstr input (ascii "/sendfile")).isSome then
      let file := input.drop (strlen (ascii "/sendfile") + 1)
      .ret () (iDevice_send_file env connection (some file) st).2
    else
      .ret () st
  else
    match iDevice_send_command env connection (some input) st with
    | .ret _ st1 => .ret () st1
    | .exit code st1 => .exit code st1
    | .awaiting st1 => .awaiting st1

/-- The `do ... while(1)` loop over the lines `readline` still has to return. -/
def shell_loop (env : Env) (connection : Option Connection) :
    List CString → State → Outcome Int
  | [], st => .awaiting st
  | input :: rest, st =>
    match shell_iteration env connection input st with
    | .ret _ st1 => shell_loop env connection rest st1
    | .exit code st1 => .exit code st1
    | .awaiting st1 => .awaiting st1

def iDevice_start_shell (env : Env) (connection : Option Connection) (st : State) :
    Outcome Int :=
  match connection with
  | none => .ret (-1) st
  | some _ => shell_loop env connection env.lines st

def iDevice_run_script (_path : Option CString) : Int := 0

/-! ## `usage` and `main` -/

def usage (st : State) : Outcome Unit :=
  .exit 0
    ([ Msg.line "ibootutil - iPhone USB communication tool\n",
       Msg.line "by Gojohnnyboi\n\n",
       Msg.line "Usage: ibootutil <args>\n\n",
       Msg.line "Options:\n",
       Msg.line "\t-c <command>\tSend a single command\n",
       Msg.line "\t-f <file>\tSend a file\n",
       Msg.line "\t-s <script>\trun script at specified path\n",
       Msg.line "\t-a <idProduct>\tSpecify idProduct value manually\n",
       Msg.line "\t-r\t\tReset the usb connection\n",
       Msg.line "\t-p\t\tOpen a shell with iBoot\n\n" ].foldl (fun s m => printf m s) st)

/-- The locals of `main` set by the argument loop. -/
structure Flags where
  productID : Int
  command : Nat
  reset : Nat
  file : Nat
  script : Nat
  shell : Nat
  deriving DecidableEq, Repr

/-- Conversion of an `int` to `uint32_t` / `unsigned int`. -/
def intToUInt32 (z : Int) : Nat := (z % 4294967296).toNat

/-- The body of the argument loop for index `i`; `argv[i+1] == NULL` holds when `i + 1` is
`argc`. -/
def parse_arg (env : Env) (argv : List CString) (i : Nat) (fl : Flags) (st : State) :
    Outcome Flags :=
  let arg := argv.getD i []
  if strcmp arg (ascii "-a") = 0 then
    match argv[i + 1]? with
    | none => .exit 1 (printf (.line "-a requires that you specify a value\n") st)
    | some v =>
      .ret { fl with productID := toInt32 (env.strtol16 v) }
        (printf (.fmtInt "Setting idProduct to 0x%x\n" (intToUInt32 (env.strtol16 v))) st)
  else if strcmp arg (ascii "-c") = 0 then
    match argv[i + 1]? with
    | none => .exit 1 (printf (.line "-c requires that you specify a command\n") st)
    | some _ => .ret { fl with command := i + 1 } st
  else if strcmp arg (ascii "-f") = 0 then
    match argv[i + 1]? with
    | none => .exit 1 (printf (.line "-f requires that you specify a file\n") st)
    | some _ => .ret { fl with file := i + 1 } st
  else if strcmp arg (ascii "-s") = 0 then
    match argv[i + 1]? with
    | none => .exit 1 (printf (.line "-s requires that you provide a script path\n") st)
    | some _ => .ret { fl with script := i + 1 } st
  else if strcmp arg (ascii "-p") = 0 then
    .ret { fl with shell := 1 } st
  else if strcmp arg (ascii "-r") = 0 then
    .ret { fl with reset := 1 } st
  else
    .ret fl st

/-- The loop `for(i=1;i<argc;++i)`; the first argument is the number of iterations left. -/
def parse_args (env : Env) (argv : List CString) : Nat → Nat → Flags → State → Outcome Flags
  | 0, _, fl, st => .ret fl st
  | left + 1, i, fl, st =>
    match parse_arg env argv i fl st with
    | .ret fl1 st1 => parse_args env argv left (i + 1) fl1 st1
    | o => o

/-- The tail shared by the `-c` and `-f` branches:
`if(reset) iDevice_reset(connection); else iDevice_close(connection); exit(0);`. -/
def finish (fl : Flags) (connection : Option Connection) (st : State) : Outcome Int :=
  if fl.reset ≠ 0 then
    match iDevice_reset connection st with
    | .ret _ st1 => .exit 0 st1
    | .exit code st1 => .exit code st1
    | .awaiting st1 => .awaiting st1
  else
    .exit 0 (iDevice_close connection st)

/-- The branch `if(command) ...` of `main`. -/
def main_command (env : Env) (argv : List CString) (fl : Flags) (st : State) : Outcome Int :=
  if fl.file ≠ 0 ∨ fl.script ≠ 0 ∨ fl.shell ≠ 0 then
    .exit 1 (printf (.line "You can only specify one of the -cfsp options\n") st)
  else
    let productID : Int := if fl.productID = 0 then RECOVERY else fl.productID
    let o := iDevice_open env (intToUInt32 productID) st
    let st1 :=
      if o.1 = none then printf (.fmtInt "Couldn't open device @ 0x%x\n" productID) o.2 else o.2
    match iDevice_send_command env o.1 argv[fl.command]? st1 with
    | .ret _ st2 => finish fl o.1 st2
    | .exit code st2 => .exit code st2
    | .awaiting st2 => .awaiting st2

/-- The branch `if(file) ...` of `main`. -/
def main_file (env : Env) (argv : List CString) (fl : Flags) (st : State) : Outcome Int :=
  if fl.command ≠ 0 ∨ fl.script ≠ 0 ∨ fl.shell ≠ 0 then
    .exit 1 (printf (.line "You can only specify one of the -cfsp options\n") st)
  else
    let o : Option Connection × State :=
      if fl.productID ≠ 0 then iDevice_open env (intToUInt32 fl.productID) st
      else
        let o1 := iDevice_open env RECOVERY st
        if o1.1 = none then iDevice_open env DFU o1.2 else o1
    if fl.productID ≠ 0 ∧ o.1 = none then
      .exit 1 (printf (.fmtInt "Couldn't open device @ 0x%x\n" fl.productID) o.2)
    else if o.1 = none then
      .exit 1 (printf (.fmtInt2 "Couldn't open device @ 0x%x or 0x%x\n" RECOVERY DFU) o.2)
    else
      let r := iDevice_send_file env o.1 argv[fl.file]? o.2
      if r.1 ≠ 0 then
        .exit 1 (iDevice_close o.1 (printf (.line "Couldn't send file\n") r.2))
      else
        finish fl o.1 r.2

/-- The branch `if(script) ...` of `main`. -/
def main_script (argv : List CString) (fl : Flags) (st : State) : Outcome Int :=
  if fl.command ≠ 0 ∨ fl.file ≠ 0 ∨ fl.shell ≠ 0 then
    .exit 1 (printf (.line "You can only specify one of the -cfsp options\n") st)
  else if iDevice_run_script argv[fl.script]? ≠ 0 then
    .exit 1 (printf (.line "Couldn't run script\n") st)
  else
    .exit 0 st

/-- The branch `if(shell) ...` of `main`. -/
def main_shell (env : Env) (fl : Flags) (st : State) : Outcome Int :=
  if fl.command ≠ 0 ∨ fl.file ≠ 0 ∨ fl.script ≠ 0 then
    .exit 1 (printf (.line "You can only specify one of the -cfsp options\n") st)
  else
    let productID : Int := if fl.productID = 0 then RECOVERY else fl.productID
    let o := iDevice_open env (intToUInt32 productID) st
    if o.1 = none then
      .exit 1 (printf (.fmtInt "Couldn't open device @ 0x%x\n" productID) o.2)
    else
      match iDevice_start_shell env o.1 o.2 with
      | .ret a st1 =>
        if a ≠ 0 then .exit 1 (printf (.line "Couldn't open shell with iBoot\n") st1)
        else .exit 0 (iDevice_close o.1 st1)
      | .exit code st1 => .exit code st1
      | .awaiting st1 => .awaiting st1

/-- The function `main`; `argv` holds `argv[0]` to `argv[argc-1]`. -/
def main (env : Env) (argv : List CString) : Outcome Int :=
  let argc := argv.length
  match (if argc < 2 then usage State.init else .ret () State.init) with
  | .exit code st => .exit code st
  | .awaiting st => .awaiting st
  | .ret _ st0 =>
    let fl0 : Flags := { productID := 0, command := 0, reset := 0, file := 0, script := 0, shell := 0 }
    match parse_args env argv (argc - 1) 1 fl0 st0 with
    | .exit code st => .exit code st
    | .awaiting st => .awaiting st
    | .ret fl st =>
      if fl.command ≠ 0 then main_command env argv fl st
      else if fl.file ≠ 0 then main_file env argv fl st
      else if fl.script ≠ 0 then main_script argv fl st
      else if fl.shell ≠ 0 then main_shell env fl st
      else .ret 0 st

/-! ## Vocabulary of the statements -/

/-- The state an outcome carries. -/
def Outcome.state {α : Type} : Outcome α → State
  | .ret _ st => st
  | .exit _ st => st
  | .awaiting st => st

/-- The answer `r` to a status poll passes for `flag`: the transfer succeeded and the byte
at offset 4 of the response is `flag`. -/
def flagIs (r : Resp) (flag : Byte) : Prop := r.ok = true ∧ r.data 4 = flag

instance (r : Resp) (flag : Byte) : Decidable (flagIs r flag) :=
  inferInstanceAs (Decidable (r.ok = true ∧ r.data 4 = flag))

/-- Packets `0` to `n - 1` go through, the first request being the `base`-th of the
process: the transfer of packet `k` is request `base + 2 * k`, its status poll request
`base + 2 * k + 1`. -/
def packetsPass (env : Env) (base n : Nat) : Prop :=
  ∀ k, k < n → (env.script (base + 2 * k)).ok = true ∧ flagIs (env.script (base + 2 * k + 1)) 5

instance (env : Env) (base n : Nat) : Decidable (packetsPass env base n) :=
  inferInstanceAs (Decidable (∀ k, k < n →
    (env.script (base + 2 * k)).ok = true ∧ flagIs (env.script (base + 2 * k + 1)) 5))

/-- The two status polls after the terminal packet, requests `base + 2 * p + 1` and
`base + 2 * p + 2`, pass for the flags 6 and 7. -/
def finalizationPasses (env : Env) (base p : Nat) : Prop :=
  flagIs (env.script (base + 2 * p + 1)) 6 ∧ flagIs (env.script (base + 2 * p + 2)) 7

instance (env : Env) (base p : Nat) : Decidable (finalizationPasses env base p) :=
  inferInstanceAs (Decidable
    (flagIs (env.script (base + 2 * p + 1)) 6 ∧ flagIs (env.script (base + 2 * p + 2)) 7))

/-- The requests of the first `n` rounds of the packet loop: each packet followed by its
status poll. -/
def packetRounds (st_size packets n : Nat) : List IOUSBDevRequest :=
  (List.range n).flatMap (fun k => [file_request st_size packets k, status_request])

/-- The requests of type `REQUEST_FILE` with request code 1 among `reqs`. -/
def fileRequests (reqs : List IOUSBDevRequest) : List IOUSBDevRequest :=
  reqs.filter (fun r => decide (r.bmRequestType = REQUEST_FILE ∧ r.bRequest = 1))

/-- The environment in which `stat`, `fopen` and `fread` find the file `path` readable with
`st_size` bytes. -/
def readsFile (env : Env) (path : CString) (st_size : Nat) : Prop :=
  (env.files path).st_size = some st_size ∧ (env.files path).canOpen = true ∧
    fread st_size 1 (env.files path).avail ≠ 0

instance (env : Env) (path : CString) (st_size : Nat) :
    Decidable (readsFile env path st_size) :=
  inferInstanceAs (Decidable ((env.files path).st_size = some st_size ∧
    (env.files path).canOpen = true ∧ fread st_size 1 (env.files path).avail ≠ 0))

/-- The line a failed status poll prints. -/
def statusMessage (r : Resp) : Msg :=
  if r.ok = false then Msg.line "Error: couldn't receive status\n"
  else Msg.line "Error: invalid status response\n"

/-! ## Concrete environments -/

/-- An answer of the device whose six response bytes all hold `flag`. -/
def answer (ok : Bool) (flag : Byte) : Resp := { ok := ok, data := fun _ => flag }

/-- An environment with the given device script in which every path names a readable file
of `st_size` bytes (no file at all for `none`) and every product id opens a device. -/
def deviceOf (script : Nat → Resp) (st_size : Option Nat) : Env :=
  { script := script
    files := fun _ => { st_size := st_size, canOpen := true, avail := st_size.getD 0 }
    device := fun _ => some (none, none)
    strtol16 := fun _ => 0
    lines := [] }

/-- A device that accepts an upload of `p` packets: every transfer succeeds and every
status poll shows the flag the upload expects at that point. -/
def uploadScript (p : Nat) : Nat → Resp :=
  fun n => answer true (if n = 2 * p + 1 then 6 else if n = 2 * p + 2 then 7 else 5)

/-- The script `s` with the transfer of request `n` failing. -/
def failAt (n : Nat) (s : Nat → Resp) : Nat → Resp :=
  fun k => if k = n then answer false 0 else s k

/-- An open connection. -/
def someConnection : Connection := { name := none, serial := none, idProduct := RECOVERY }

/-- A device that gives every request the same answer: transfer result `ok`, every
response byte `flag`. -/
def steady (ok : Bool) (flag : Byte) : Nat → Resp := fun _ => answer ok flag

/-- An environment like `deviceOf` in which no product id opens a device. -/
def unplugged (script : Nat → Resp) (st_size : Option Nat) : Env :=
  { deviceOf script st_size with device := fun _ => none }

/-! # Theorems -/

/-! ## The C library and the status poll -/

theorem schar_eq_iff (b : Byte) (flag : Int) (h0 : 0 ≤ flag) (h1 : flag ≤ 127) :
    schar b = flag ↔ (b.val : Int) = flag := by
  unfold schar
  have := b.isLt
  split <;> omega

theorem schar_eq_byte (b f : Byte) (hf : f.val ≤ 127) : schar b = (f.val : Int) ↔ b = f := by
  rw [schar_eq_iff b _ (by omega) (by omega)]
  constructor
  · intro h; exact Fin.ext (by omega)
  · intro h; rw [h]

/-- `strcmp` returns zero exactly for strings of equal text. -/
theorem strcmp_eq_zero_iff (a b : CString) : strcmp a b = 0 ↔ text a = text b := by
  induction a generalizing b with
  | nil =>
    cases b with
    | nil => simp [strcmp, text]
    | cons y ys =>
      simp only [strcmp, text]
      by_cases hy : y = 0
      · simp [hy]
      · simp [hy]
        intro h; apply hy; exact Fin.ext (by simpa using h)
  | cons x xs ih =>
    cases b with
    | nil =>
      simp only [strcmp, text]
      by_cases hx : x = 0
      · simp [hx]
      · simp [hx]
        intro h; apply hx; exact Fin.ext (by simpa using h)
    | cons y ys =>
      simp only [strcmp, text]
      by_cases hxy : x = y
      · subst hxy
        by_cases hx : x = 0
        · simp [hx]
        · simp [hx, ih]
      · simp only [hxy, if_false]
        have hne : (x.val : Int) - (y.val : Int) ≠ 0 := by
          intro h
          apply hxy
          exact Fin.ext (by omega)
        simp only [hne, false_iff]
        by_cases hx : x = 0
        · by_cases hy : y = 0
          · exact absurd (hx.trans hy.symm) hxy
          · simp [hx, hy]
        · by_cases hy : y = 0
          · simp [hx, hy]
          · simp [hx, hy, hxy]

/-- The status poll, case by case. -/
theorem request_status_cases (env : Env) (c : Connection) (f : Byte) (hf : f.val ≤ 127)
    (st : State) :
    (flagIs (env.script st.trace.length) f ∧
      iDevice_request_status env (some c) (f.val : Int) st
        = (0, { st with trace := st.trace ++ [status_request] })) ∨
    (¬ flagIs (env.script st.trace.length) f ∧
      ∃ m, iDevice_request_status env (some c) (f.val : Int) st
        = (-1, { st with trace := st.trace ++ [status_request], out := st.out ++ [m] })) := by
  unfold iDevice_request_status flagIs
  simp only [DeviceRequest, printf]
  by_cases hok : (env.script st.trace.length).ok = false
  · right
    simp [hok]
  · simp only [hok, if_false]
    have hok2 : (env.script st.trace.length).ok = true := by simpa using hok
    by_cases hb : (env.script st.trace.length).data 4 = f
    · left
      have : schar ((env.script st.trace.length).data 4) = (f.val : Int) :=
        (schar_eq_byte _ _ hf).2 hb
      simp [this, hok2]
      exact hb
    · right
      have : schar ((env.script st.trace.length).data 4) ≠ (f.val : Int) :=
        fun h => hb ((schar_eq_byte _ _ hf).1 h)
      simp [this, hb]

/-! ## The packet loop -/

/-- The requests of `n` rounds of the packet loop that start at packet `cur`. -/
theorem roundsFrom_succ (L p cur n : Nat) :
    (List.range (n + 1)).flatMap (fun k => [file_request L p (cur + k), status_request])
      = file_request L p cur :: status_request ::
        (List.range n).flatMap (fun k => [file_request L p (cur + 1 + k), status_request]) := by
  rw [List.range_succ_eq_map, List.flatMap_cons, List.flatMap_map]
  simp only [Nat.add_zero, List.cons_append, List.nil_append, List.cons.injEq, true_and]
  congr 1
  funext k
  simp [Nat.add_assoc, Nat.add_comm 1 k, Nat.succ_eq_add_one]

theorem packetsPass_tail (env : Env) (base n : Nat) (h : packetsPass env base (n + 1)) :
    packetsPass env (base + 2) n := by
  intro k hk
  have := h (k + 1) (by omega)
  have e1 : base + 2 * (k + 1) = base + 2 + 2 * k := by omega
  rw [e1] at this
  exact this

/-- When every packet goes through, the loop runs to its end. -/
theorem send_packets_pass (env : Env) (c : Connection) (L p : Nat) :
    ∀ (n cur : Nat) (st : State), cur + n < 4294967296 →
      packetsPass env st.trace.length n →
      send_packets env (some c) L p n cur st
        = .finished (cur + n)
            { st with trace := st.trace ++
                (List.range n).flatMap (fun k => [file_request L p (cur + k), status_request]) } := by
  intro n
  induction n with
  | zero => intro cur st _ _; simp [send_packets]
  | succ n ih =>
    intro cur st hlt hpass
    have h0 := hpass 0 (by omega)
    simp only [Nat.mul_zero, Nat.add_zero] at h0
    have hcur : toUInt32 (cur + 1) = cur + 1 := by unfold toUInt32; omega
    rcases request_status_cases env c 5 (by decide)
        { st with trace := st.trace ++ [file_request L p cur] } with ⟨_, hs⟩ | ⟨hn, _⟩
    · have hs5 : iDevice_request_status env (some c) 5
          { st with trace := st.trace ++ [file_request L p cur] }
          = (0, { st with trace := st.trace ++ [file_request L p cur] ++ [status_request] }) := hs
      have ihn := ih (cur + 1)
        { st with trace := st.trace ++ [file_request L p cur] ++ [status_request] }
        (by omega)
        (by
          have := packetsPass_tail env st.trace.length n hpass
          simpa [Nat.add_assoc] using this)
      rw [send_packets]
      simp only [DeviceRequest, h0.1, hs5, hcur]
      simp only [Bool.true_eq_false, if_false, ne_eq, not_true_eq_false]
      rw [ihn, roundsFrom_succ]
      simp [Nat.add_assoc, Nat.add_comm 1 n]
    · exfalso
      apply hn
      simpa using h0.2

/-- When the transfer of packet `i` is the first request to fail, the loop returns there. -/
theorem send_packets_transfer_fails (env : Env) (c : Connection) (L p : Nat) :
    ∀ (i n cur : Nat) (st : State), i < n → cur + n < 4294967296 →
      packetsPass env st.trace.length i →
      (env.script (st.trace.length + 2 * i)).ok = false →
      send_packets env (some c) L p n cur st
        = .aborted
            { st with
              trace := st.trace ++
                ((List.range i).flatMap (fun k => [file_request L p (cur + k), status_request])
                  ++ [file_request L p (cur + i)])
              out := st.out ++
                [Msg.fmtInt "Error: couldn't send packet %d\n" ((cur + i + 1 : Nat) : Int)] } := by
  intro i
  induction i with
  | zero =>
    intro n cur st hin hlt _ hfail
    obtain ⟨m, rfl⟩ : ∃ m, n = m + 1 := ⟨n - 1, by omega⟩
    have hcur : toUInt32 (cur + 1) = cur + 1 := by unfold toUInt32; omega
    simp only [Nat.mul_zero, Nat.add_zero] at hfail
    rw [send_packets]
    simp [DeviceRequest, hfail, printf, hcur]
  | succ i ih =>
    intro n cur st hin hlt hpass hfail
    obtain ⟨m, rfl⟩ : ∃ m, n = m + 1 := ⟨n - 1, by omega⟩
    have h0 := hpass 0 (by omega)
    simp only [Nat.mul_zero, Nat.add_zero] at h0
    have hcur : toUInt32 (cur + 1) = cur + 1 := by unfold toUInt32; omega
    rcases request_status_cases env c 5 (by decide)
        { st with trace := st.trace ++ [file_request L p cur] } with ⟨_, hs⟩ | ⟨hn, _⟩
    · have hs5 : iDevice_request_status env (some c) 5
          { st with trace := st.trace ++ [file_request L p cur] }
          = (0, { st with trace := st.trace ++ [file_request L p cur] ++ [status_request] }) := hs
      have ihn := ih m (cur + 1)
        { st with trace := st.trace ++ [file_request L p cur] ++ [status_request] }
        (by omega) (by omega)
        (by
          have := packetsPass_tail env st.trace.length i hpass
          simpa [Nat.add_assoc] using this)
        (by
          have e : st.trace.length + 2 * (i + 1) = st.trace.length + 1 + 1 + 2 * i := by omega
          rw [e] at hfail
          simpa [Nat.add_assoc] using hfail)
      rw [send_packets]
      simp only [DeviceRequest, h0.1, hs5, hcur]
      simp only [Bool.true_eq_false, if_false, ne_eq, not_true_eq_false]
      rw [ihn, roundsFrom_succ]
      simp [Nat.add_assoc, Nat.add_comm 1 i]
    · exfalso
      apply hn
      simpa using h0.2

/-- The loop runs to its end only when every packet goes through. -/
theorem send_packets_finished (env : Env) (c : Connection) (L p : Nat) :
    ∀ (n cur : Nat) (st : State) (cur1 : Nat) (st1 : State),
      send_packets env (some c) L p n cur st = .finished cur1 st1 →
      packetsPass env st.trace.length n := by
  intro n
  induction n with
  | zero => intro cur st cur1 st1 _ k hk; omega
  | succ n ih =>
    intro cur st cur1 st1 h
    rw [send_packets] at h
    simp only [DeviceRequest] at h
    by_cases hok : (env.script st.trace.length).ok = false
    · simp [hok] at h
    · have hok2 : (env.script st.trace.length).ok = true := by simpa using hok
      simp only [hok, if_false] at h
      rcases request_status_cases env c 5 (by decide)
          { st with trace := st.trace ++ [file_request L p cur] } with ⟨hf, hs⟩ | ⟨_, m, hs⟩
      · have hs5 : iDevice_request_status env (some c) 5
            { st with trace := st.trace ++ [file_request L p cur] }
            = (0, { st with trace := st.trace ++ [file_request L p cur] ++ [status_request] }) := hs
        rw [hs5] at h
        simp only [ne_eq, not_true_eq_false, if_false] at h
        have := ih _ _ _ _ h
        intro k hk
        cases k with
        | zero =>
          simp only [Nat.mul_zero, Nat.add_zero]
          exact ⟨hok2, by simpa using hf⟩
        | succ k =>
          have hk2 := this k (by omega)
          have e : st.trace.length + 2 * (k + 1) = st.trace.length + 1 + 1 + 2 * k := by omega
          rw [e]
          simpa [Nat.add_assoc] using hk2
      · have hs5 : iDevice_request_status env (some c) 5
            { st with trace := st.trace ++ [file_request L p cur] }
            = (-1, { st with trace := st.trace ++ [file_request L p cur] ++ [status_request],
                             out := st.out ++ [m] }) := by
          rw [show (5 : Int) = (((5 : Byte).val : Nat) : Int) from rfl]
          simpa using hs
        rw [hs5] at h
        simp at h

theorem packetCount_lt (L : Nat) : packetCount L < 4294967296 := by
  simp only [packetCount, toUInt32]
  split <;> omega

theorem rounds_length (L p cur n : Nat) :
    ((List.range n).flatMap (fun k => [file_request L p (cur + k), status_request])).length
      = 2 * n := by
  induction n generalizing cur with
  | zero => simp
  | succ n ih =>
    rw [roundsFrom_succ]
    simp only [List.length_cons, ih]
    omega

/-- The function after its file-reading part, for a file found readable. -/
theorem send_file_of_readsFile (env : Env) (c : Connection) (path : CString) (st : State)
    (L : Nat) (hread : readsFile env path L) :
    iDevice_send_file env (some c) (some path) st
      = match send_packets env (some c) L (packetCount L) (packetCount L) 0 st with
        | .aborted st1 => (-1, st1)
        | .finished current st1 => send_file_finish env (some c) path current st1 := by
  obtain ⟨h1, h2, h3⟩ := hread
  unfold iDevice_send_file
  simp only [h1, h2, h3, if_false, Bool.true_eq_false]

/-- The status poll as a conditional on the answer of the device. -/
theorem request_status_eq (env : Env) (c : Connection) (flag : Int) (f : Byte)
    (hflag : flag = (f.val : Int)) (hf : f.val ≤ 127) (st : State) :
    iDevice_request_status env (some c) flag st
      = if flagIs (env.script st.trace.length) f then
          (0, { st with trace := st.trace ++ [status_request] })
        else
          (-1, { st with
                 trace := st.trace ++ [status_request]
                 out := st.out ++
                   [if (env.script st.trace.length).ok = false
                    then Msg.line "Error: couldn't receive status\n"
                    else Msg.line "Error: invalid status response\n"] }) := by
  subst hflag
  unfold iDevice_request_status flagIs
  simp only [DeviceRequest, printf]
  by_cases hok : (env.script st.trace.length).ok = false
  · simp [hok]
  · have hok2 : (env.script st.trace.length).ok = true := by simpa using hok
    by_cases hb : (env.script st.trace.length).data 4 = f
    · have : schar ((env.script st.trace.length).data 4) = (f.val : Int) :=
        (schar_eq_byte _ _ hf).2 hb
      simp only [hok2, this]
      simp [hb]
    · have : schar ((env.script st.trace.length).data 4) ≠ (f.val : Int) :=
        fun h => hb ((schar_eq_byte _ _ hf).1 h)
      simp [this, hb, hok2]

/-- The part after the packet loop, case by case. -/
theorem send_file_finish_cases (env : Env) (c : Connection) (path : CString) (cur : Nat)
    (st : State) :
    ((flagIs (env.script (st.trace.length + 1)) 6 ∧ flagIs (env.script (st.trace.length + 2)) 7) ∧
      send_file_finish env (some c) path cur st
        = (0, { st with
                trace := st.trace ++ [checkup cur, status_request, status_request]
                out := st.out ++ [Msg.fmtStr "Sent file %s\n" path] })) ∨
    (¬ (flagIs (env.script (st.trace.length + 1)) 6 ∧ flagIs (env.script (st.trace.length + 2)) 7) ∧
      (send_file_finish env (some c) path cur st).1 = -1) := by
  unfold send_file_finish
  simp only [DeviceRequest, request_status_eq env c 6 6 rfl (by decide),
    request_status_eq env c 7 7 rfl (by decide), List.length_append, List.length_singleton]
  by_cases h6 : flagIs (env.script (st.trace.length + 1)) 6
  · by_cases h7 : flagIs (env.script (st.trace.length + 1 + 1)) 7
    · left
      simp [h6, h7, printf]
    · right
      simp [h6, h7]
  · right
    simp [h6]

/-- The function when every packet goes through, for a file found readable. -/
theorem send_file_of_packetsPass (env : Env) (c : Connection) (path : CString) (st : State)
    (L : Nat) (hread : readsFile env path L)
    (hpass : packetsPass env st.trace.length (packetCount L)) :
    (finalizationPasses env st.trace.length (packetCount L) ∧
      iDevice_send_file env (some c) (some path) st
        = (0, { st with
                trace := st.trace ++ (packetRounds L (packetCount L) (packetCount L)
                  ++ [checkup (packetCount L), status_request, status_request])
                out := st.out ++ [Msg.fmtStr "Sent file %s\n" path] })) ∨
    (¬ finalizationPasses env st.trace.length (packetCount L) ∧
      (iDevice_send_file env (some c) (some path) st).1 = -1) := by
  have hp := packetCount_lt L
  have hlen := rounds_length L (packetCount L) 0 (packetCount L)
  rw [send_file_of_readsFile env c path st L hread,
    send_packets_pass env c L (packetCount L) (packetCount L) 0 st (by omega) hpass]
  simp only [Nat.zero_add] at hlen ⊢
  rcases send_file_finish_cases env c path (packetCount L)
      { st with trace := (st.trace ++ (List.range (packetCount L)).flatMap
        (fun k => [file_request L (packetCount L) k, status_request])) } with ⟨hf, hs⟩ | ⟨hf, hs⟩
  · left
    simp only [List.length_append, hlen] at hf
    refine ⟨hf, ?_⟩
    rw [hs]
    simp [packetRounds]
  · right
    simp only [List.length_append, hlen] at hf
    exact ⟨hf, hs⟩

theorem send_file_ret_cases (env : Env) (c : Connection) (path : CString) (st : State)
    (L : Nat) (hread : readsFile env path L) :
    (iDevice_send_file env (some c) (some path) st).1 = 0 ∨
    (iDevice_send_file env (some c) (some path) st).1 = -1 := by
  rw [send_file_of_readsFile env c path st L hread]
  cases send_packets env (some c) L (packetCount L) (packetCount L) 0 st with
  | aborted st1 => right; rfl
  | finished cur st1 =>
    rcases send_file_finish_cases env c path cur st1 with ⟨_, hs⟩ | ⟨_, hs⟩
    · left; simp only [hs]
    · right; exact hs

theorem send_file_zero_iff (env : Env) (c : Connection) (path : CString) (st : State)
    (L : Nat) (hread : readsFile env path L) :
    (iDevice_send_file env (some c) (some path) st).1 = 0 ↔
      packetsPass env st.trace.length (packetCount L) ∧
      finalizationPasses env st.trace.length (packetCount L) := by
  by_cases hpass : packetsPass env st.trace.length (packetCount L)
  · rcases send_file_of_packetsPass env c path st L hread hpass with ⟨hf, hs⟩ | ⟨hf, hs⟩
    · simp only [hs, hpass, hf, and_self]
    · rw [hs]
      constructor
      · intro h; exact absurd h (by decide)
      · intro h; exact absurd h.2 hf
  · constructor
    · intro h
      exfalso
      rw [send_file_of_readsFile env c path st L hread] at h
      cases hsp : send_packets env (some c) L (packetCount L) (packetCount L) 0 st with
      | aborted st1 =>
        rw [hsp] at h
        simp at h
      | finished cur st1 =>
        exact hpass (send_packets_finished env c L (packetCount L) _ _ _ _ _ hsp)
    · intro h; exact absurd h.1 hpass

theorem fileRequests_rounds (L p n : Nat) :
    fileRequests (packetRounds L p n) = (List.range n).map (file_request L p) := by
  induction n with
  | zero => simp [packetRounds, fileRequests]
  | succ n ih =>
    have hsplit : packetRounds L p (n + 1)
        = packetRounds L p n ++ [file_request L p n, status_request] := by
      simp [packetRounds, List.range_succ, List.flatMap_append]
    have hkeep : fileRequests [file_request L p n, status_request] = [file_request L p n] := by
      simp [fileRequests, file_request, status_request, REQUEST_FILE, REQUEST_STATUS]
    unfold fileRequests at ih hkeep ⊢
    rw [hsplit, List.filter_append, ih, hkeep, List.range_succ, List.map_append]
    rfl

theorem fileRequests_upload (L p : Nat) :
    fileRequests (packetRounds L p p ++ [checkup p, status_request, status_request])
      = (List.range p).map (file_request L p) ++ [checkup p] := by
  have hkeep : fileRequests [checkup p, status_request, status_request] = [checkup p] := by
    simp [fileRequests, checkup, status_request, REQUEST_FILE, REQUEST_STATUS]
  have h := fileRequests_rounds L p p
  unfold fileRequests at h hkeep ⊢
  rw [List.filter_append, h, hkeep]

theorem wValues_upload (L p : Nat) :
    ((List.range p).map (file_request L p) ++ [checkup p]).map (fun r => r.wValue)
      = (List.range p).map (fun i => i % 65536) ++ [p % 65536] := by
  simp [file_request, checkup, toUInt16, Function.comp_def]

theorem range_mod_small (p : Nat) (hp : p < 65536) :
    (List.range p).map (fun i => i % 65536) = List.range p := by
  have : ∀ i ∈ List.range p, (fun i => i % 65536) i = id i := by
    intro i hi
    have := List.mem_range.1 hi
    simp only [id]
    omega
  rw [List.map_congr_left this, List.map_id]

/-! ## The status poll (C5) -/

/-- C5, as amended: for every answer of the device and every expected flag in 0..127,
`iDevice_request_status` issues the request (type 0xA1, code 3, value 0, index 0, length 6)
and returns 0 if and only if the transfer succeeded and the byte at offset 4 of the
response equals the flag; otherwise it returns -1; and no other response byte affects
the result. -/
theorem request_status_flag (env : Env) (c : Connection) (flag : Int) (st : State)
    (h0 : 0 ≤ flag) (h1 : flag ≤ 127) :
    ((iDevice_request_status env (some c) flag st).1 = 0 ↔
      ((env.script st.trace.length).ok = true ∧
        (((env.script st.trace.length).data 4).val : Int) = flag)) ∧
    ((iDevice_request_status env (some c) flag st).1 ≠ 0 →
      (iDevice_request_status env (some c) flag st).1 = -1) ∧
    (iDevice_request_status env (some c) flag st).2.trace
      = st.trace ++ [{ bmRequestType := 0xA1, bRequest := 3, wValue := 0, wIndex := 0,
                       wLength := 6, pData := .response, wLenDone := 0 }] ∧
    (∀ env2 : Env, (env2.script st.trace.length).ok = (env.script st.trace.length).ok →
      (env2.script st.trace.length).data 4 = (env.script st.trace.length).data 4 →
      iDevice_request_status env2 (some c) flag st
        = iDevice_request_status env (some c) flag st) := by
  have hs := schar_eq_iff ((env.script st.trace.length).data 4) flag h0 h1
  refine ⟨?_, ?_, ?_, ?_⟩
  · unfold iDevice_request_status
    simp only [DeviceRequest]
    by_cases hok : (env.script st.trace.length).ok = false
    · simp [hok]
    · have hok2 : (env.script st.trace.length).ok = true := by simpa using hok
      by_cases hb : schar ((env.script st.trace.length).data 4) = flag
      · simp [hok2, hb, hs.1 hb]
      · have : ¬ ((((env.script st.trace.length).data 4).val : Int) = flag) :=
          fun h => hb (hs.2 h)
        simp [hok2, hb, this]
  · unfold iDevice_request_status
    simp only [DeviceRequest]
    by_cases hok : (env.script st.trace.length).ok = false
    · simp [hok]
    · by_cases hb : schar ((env.script st.trace.length).data 4) = flag
      · simp [hok, hb]
      · simp [hok, hb]
  · unfold iDevice_request_status
    simp only [DeviceRequest, printf]
    by_cases hok : (env.script st.trace.length).ok = false
    · simp [hok, status_request, REQUEST_STATUS]
    · by_cases hb : schar ((env.script st.trace.length).data 4) = flag
      · simp [hok, hb, status_request, REQUEST_STATUS]
      · simp [hok, hb, status_request, REQUEST_STATUS]
  · intro env2 hok h4
    unfold iDevice_request_status
    simp only [DeviceRequest, hok, h4]

/-- C5, witness: a response with byte 4 equal to 5 passes for the expected flag 5. -/
theorem request_status_flag_witness :
    (0 : Int) ≤ 5 ∧ (5 : Int) ≤ 127 ∧
    (iDevice_request_status (deviceOf (steady true 5) none) (some someConnection) 5
      State.init).1 = 0 :=
  ⟨by decide, by decide,
    (request_status_flag (deviceOf (steady true 5) none) someConnection 5 State.init
      (by decide) (by decide)).1.2 ⟨rfl, rfl⟩⟩

/-- C5, counterexample: the transfer succeeds and the byte at offset 4 of the response is
255, the expected flag is 255, and the poll fails: the byte is read as a signed `char`. -/
theorem status_poll_rejects_flag_255 :
    ((deviceOf (steady true 255) none).script 0).ok = true ∧
    (((deviceOf (steady true 255) none).script 0).data 4).val = 255 ∧
    (iDevice_request_status (deviceOf (steady true 255) none) (some someConnection) 255
      State.init).1 = -1 := by
  decide

/-! ## The command protocol (C6, C7) -/

theorem text_ascii_reboot : text (ascii "reboot") = ascii "reboot" := by decide

/-- The request `iDevice_send_command` issues, whatever the device answers. -/
theorem send_command_trace (env : Env) (c : Connection) (cmd : CString) (st : State) :
    (iDevice_send_command env (some c) (some cmd) st).state.trace
      = st.trace ++ [{ bmRequestType := 0x40, bRequest := 0, wValue := 0, wIndex := 0,
                       wLength := (strlen cmd + 1) % 65536, pData := .str cmd,
                       wLenDone := 0 }] := by
  unfold iDevice_send_command
  simp only [DeviceRequest, printf, iDevice_close]
  by_cases hok : (env.script st.trace.length).ok = false
  · by_cases hcmp : strcmp cmd (ascii "reboot") = 0
    · simp [hok, hcmp, Outcome.state, REQUEST_COMMAND, toUInt16]
    · simp [hok, hcmp, Outcome.state, REQUEST_COMMAND, toUInt16]
  · simp [hok, Outcome.state, REQUEST_COMMAND, toUInt16]

theorem text_replicate (n : Nat) (b : Byte) (hb : b ≠ 0) :
    text (List.replicate n b) = List.replicate n b := by
  induction n with
  | zero => rfl
  | succ n ih => simp [List.replicate_succ, text, hb, ih]

/-- C6: when the control transfer of `iDevice_send_command` fails, the process takes the
reboot path (prints "Rebooting device...", closes the session and ends with `exit(0)`) if
and only if the command text is exactly "reboot"; for every other text the function prints
an error and returns -1, the session being left as it was. -/
theorem send_command_transfer_failure (env : Env) (c : Connection) (cmd : CString)
    (st : State) (hfail : (env.script st.trace.length).ok = false) :
    ((∃ st1, iDevice_send_command env (some c) (some cmd) st = .exit 0 st1 ∧
        st1.closed = true) ↔ text cmd = ascii "reboot") ∧
    (text cmd = ascii "reboot" →
      iDevice_send_command env (some c) (some cmd) st
        = .exit 0
            { trace := st.trace ++
                [{ bmRequestType := 0x40, bRequest := 0, wValue := 0, wIndex := 0,
                   wLength := (strlen cmd + 1) % 65536, pData := .str cmd, wLenDone := 0 }]
              out := st.out ++ [Msg.line "Rebooting device...\n"]
              closed := true
              resets := st.resets }) ∧
    (text cmd ≠ ascii "reboot" →
      iDevice_send_command env (some c) (some cmd) st
        = .ret (-1)
            { trace := st.trace ++
                [{ bmRequestType := 0x40, bRequest := 0, wValue := 0, wIndex := 0,
                   wLength := (strlen cmd + 1) % 65536, pData := .str cmd, wLenDone := 0 }]
              out := st.out ++ [Msg.line "Error sending command\n"]
              closed := st.closed
              resets := st.resets }) := by
  have hcmp : strcmp cmd (ascii "reboot") = 0 ↔ text cmd = ascii "reboot" := by
    rw [strcmp_eq_zero_iff, text_ascii_reboot]
  by_cases h : text cmd = ascii "reboot"
  · have h0 : strcmp cmd (ascii "reboot") = 0 := hcmp.2 h
    have hrun : iDevice_send_command env (some c) (some cmd) st
        = .exit 0
            { trace := st.trace ++
                [{ bmRequestType := 0x40, bRequest := 0, wValue := 0, wIndex := 0,
                   wLength := (strlen cmd + 1) % 65536, pData := .str cmd, wLenDone := 0 }]
              out := st.out ++ [Msg.line "Rebooting device...\n"]
              closed := true
              resets := st.resets } := by
      unfold iDevice_send_command
      simp [DeviceRequest, printf, iDevice_close, hfail, h0, REQUEST_COMMAND, toUInt16]
    refine ⟨⟨fun _ => h, fun _ => ⟨_, hrun, rfl⟩⟩, fun _ => hrun, fun hne => absurd h hne⟩
  · have h0 : strcmp cmd (ascii "reboot") ≠ 0 := fun e => h (hcmp.1 e)
    have hrun : iDevice_send_command env (some c) (some cmd) st
        = .ret (-1)
            { trace := st.trace ++
                [{ bmRequestType := 0x40, bRequest := 0, wValue := 0, wIndex := 0,
                   wLength := (strlen cmd + 1) % 65536, pData := .str cmd, wLenDone := 0 }]
              out := st.out ++ [Msg.line "Error sending command\n"]
              closed := st.closed
              resets := st.resets } := by
      unfold iDevice_send_command
      simp [DeviceRequest, printf, hfail, h0, REQUEST_COMMAND, toUInt16]
    refine ⟨⟨fun ⟨st1, he, _⟩ => ?_, fun e => absurd e h⟩, fun e => absurd e h, fun _ => hrun⟩
    rw [hrun] at he
    exact absurd he (by simp)

/-- C6, witness: on a device whose transfers fail, "reboot" ends the process with status 0
and the session closed. -/
theorem send_command_transfer_failure_witness :
    ((deviceOf (steady false 0) none).script State.init.trace.length).ok = false ∧
    iDevice_send_command (deviceOf (steady false 0) none) (some someConnection)
        (some (ascii "reboot")) State.init
      = .exit 0
          { trace := State.init.trace ++
              [{ bmRequestType := 0x40, bRequest := 0, wValue := 0, wIndex := 0,
                 wLength := (strlen (ascii "reboot") + 1) % 65536,
                 pData := .str (ascii "reboot"), wLenDone := 0 }]
            out := State.init.out ++ [Msg.line "Rebooting device...\n"]
            closed := true
            resets := State.init.resets } :=
  ⟨rfl, (send_command_transfer_failure (deviceOf (steady false 0) none) someConnection
    (ascii "reboot") State.init rfl).2.1 (by decide)⟩

/-- C7, as amended: for every command text of at most 65534 bytes, `iDevice_send_command`
issues exactly one request, with request type 0x40, request code 0, value 0, index 0, a
declared length equal to the byte length of the text plus one, and a payload made of the
bytes of the text followed by a single NUL. -/
theorem send_command_request (env : Env) (c : Connection) (cmd : CString) (st : State)
    (hlen : strlen cmd + 1 < 65536) :
    (iDevice_send_command env (some c) (some cmd) st).state.trace
      = st.trace ++ [{ bmRequestType := 0x40, bRequest := 0, wValue := 0, wIndex := 0,
                       wLength := strlen cmd + 1, pData := .str cmd, wLenDone := 0 }] ∧
    wirePayload { bmRequestType := 0x40, bRequest := 0, wValue := 0, wIndex := 0,
                  wLength := strlen cmd + 1, pData := .str cmd, wLenDone := 0 }
      = some (text cmd ++ [0]) := by
  refine ⟨?_, ?_⟩
  · rw [send_command_trace, Nat.mod_eq_of_lt hlen]
  · simp [wirePayload, strlen]

/-- C7, witness: the command "go" goes out as the three bytes `g`, `o`, NUL. -/
theorem send_command_request_witness :
    strlen (ascii "go") + 1 < 65536 ∧
    (iDevice_send_command (deviceOf (steady true 0) none) (some someConnection)
        (some (ascii "go")) State.init).state.trace
      = State.init.trace ++
          [{ bmRequestType := 0x40, bRequest := 0, wValue := 0, wIndex := 0,
             wLength := strlen (ascii "go") + 1, pData := .str (ascii "go"),
             wLenDone := 0 }] ∧
    wirePayload { bmRequestType := 0x40, bRequest := 0, wValue := 0, wIndex := 0,
                  wLength := strlen (ascii "go") + 1, pData := .str (ascii "go"),
                  wLenDone := 0 }
      = some (text (ascii "go") ++ [0]) ∧
    text (ascii "go") ++ [0] = [103, 111, 0] ∧ strlen (ascii "go") + 1 = 3 :=
  ⟨by decide,
   (send_command_request (deviceOf (steady true 0) none) someConnection (ascii "go")
      State.init (by decide)).1,
   (send_command_request (deviceOf (steady true 0) none) someConnection (ascii "go")
      State.init (by decide)).2,
   by decide, by decide⟩

/-- C7, counterexample: for a command of 65535 bytes `A` the declared length is 0, not
65536, and no byte of the command goes out. -/
theorem long_command_length_wraps :
    strlen (List.replicate 65535 (65 : Byte)) + 1 = 65536 ∧
    (iDevice_send_command (deviceOf (steady true 0) none) (some someConnection)
        (some (List.replicate 65535 65)) State.init).state.trace
      = [{ bmRequestType := 0x40, bRequest := 0, wValue := 0, wIndex := 0,
           wLength := 0, pData := .str (List.replicate 65535 65), wLenDone := 0 }] ∧
    wirePayload { bmRequestType := 0x40, bRequest := 0, wValue := 0, wIndex := 0,
                  wLength := 0, pData := .str (List.replicate 65535 65), wLenDone := 0 }
      = some [] := by
  have hlen : strlen (List.replicate 65535 (65 : Byte)) = 65535 := by
    unfold strlen
    rw [text_replicate 65535 65 (by decide), List.length_replicate]
  refine ⟨by rw [hlen], ?_, ?_⟩
  · rw [send_command_trace, hlen]
    rfl
  · simp only [wirePayload, List.take_zero]

/-! ## The file upload (C1, C2, C3, C4, C8) -/

theorem packetRounds_zero_add (L p n : Nat) :
    (List.range n).flatMap (fun k => [file_request L p (0 + k), status_request])
      = packetRounds L p n := by
  simp [packetRounds]

/-- The upload when the transfer of packet `i` is the first request to fail. -/
theorem send_file_transfer_fails (env : Env) (c : Connection) (path : CString) (st : State)
    (L i : Nat) (hread : readsFile env path L) (hi : i < packetCount L)
    (hpass : packetsPass env st.trace.length i)
    (hfail : (env.script (st.trace.length + 2 * i)).ok = false) :
    iDevice_send_file env (some c) (some path) st
      = (-1, { st with
               trace := st.trace ++
                 (packetRounds L (packetCount L) i ++ [file_request L (packetCount L) i])
               out := st.out ++
                 [Msg.fmtInt "Error: couldn't send packet %d\n" ((i + 1 : Nat) : Int)] }) := by
  have hp := packetCount_lt L
  rw [send_file_of_readsFile env c path st L hread,
    send_packets_transfer_fails env c L (packetCount L) i (packetCount L) 0 st hi (by omega)
      hpass hfail]
  simp only [Nat.zero_add]
  rfl

/-- A device that follows `uploadScript p` lets an upload of `p` packets through. -/
theorem uploadScript_passes (p : Nat) (size : Option Nat) :
    packetsPass (deviceOf (uploadScript p) size) 0 p ∧
    finalizationPasses (deviceOf (uploadScript p) size) 0 p := by
  refine ⟨?_, ?_, ?_⟩
  · intro k hk
    have h1 : ¬ (k = p) := by omega
    have h2 : ¬ (2 * k = 2 * p + 1) := by omega
    simp [deviceOf, uploadScript, answer, flagIs, h1, h2]
  · simp [deviceOf, uploadScript, answer, flagIs]
  · simp [deviceOf, uploadScript, answer, flagIs]

/-- C1, evaluation at a file of 4096 bytes on a device that accepts everything: two packets
are planned, and the requests of type 0x21 carry (value, declared length) = (0, 2048),
(1, 0), (2, 0): the second data packet is declared with length 0, not 2048, while
`L - P * (packetCount - 1)` is 2048. -/
theorem send_file_4096_lengths :
    packetCount 4096 = 2 ∧ 4096 - packet_size * (packetCount 4096 - 1) = 2048 ∧
    (iDevice_send_file (deviceOf (uploadScript 2) (some 4096)) (some someConnection)
      (some (ascii "iBEC")) State.init).1 = 0 ∧
    (fileRequests (iDevice_send_file (deviceOf (uploadScript 2) (some 4096))
        (some someConnection) (some (ascii "iBEC")) State.init).2.trace).map
        (fun r => (r.wValue, r.wLength))
      = [(0, 2048), (1, 0), (2, 0)] := by
  decide

/-- C2, as amended: for every file found readable, when every transfer and status poll
succeeds, the requests of type 0x21 and code 1 are the `packetCount` data packets in
ascending order, their value fields being the packet index modulo 65536, followed by
exactly one terminal request with declared length 0 whose value field is `packetCount`
modulo 65536; when `packetCount` is below 65536 the value fields are exactly
0, 1, ..., packetCount - 1 followed by packetCount. -/
theorem send_file_value_fields (env : Env) (c : Connection) (path : CString) (st : State)
    (L : Nat) (hread : readsFile env path L)
    (hpass : packetsPass env st.trace.length (packetCount L))
    (hfin : finalizationPasses env st.trace.length (packetCount L)) :
    fileRequests ((iDevice_send_file env (some c) (some path) st).2.trace.drop st.trace.length)
      = (List.range (packetCount L)).map (file_request L (packetCount L))
          ++ [checkup (packetCount L)] ∧
    (fileRequests ((iDevice_send_file env (some c) (some path) st).2.trace.drop
        st.trace.length)).map (fun r => r.wValue)
      = (List.range (packetCount L)).map (fun i => i % 65536) ++ [packetCount L % 65536] ∧
    (checkup (packetCount L)).wLength = 0 ∧
    (packetCount L < 65536 →
      (fileRequests ((iDevice_send_file env (some c) (some path) st).2.trace.drop
          st.trace.length)).map (fun r => r.wValue)
        = List.range (packetCount L) ++ [packetCount L]) := by
  rcases send_file_of_packetsPass env c path st L hread hpass with ⟨_, hs⟩ | ⟨hn, _⟩
  · have hdrop : (iDevice_send_file env (some c) (some path) st).2.trace.drop st.trace.length
        = packetRounds L (packetCount L) (packetCount L)
            ++ [checkup (packetCount L), status_request, status_request] := by
      rw [hs]
      exact List.drop_left _ _
    rw [hdrop, fileRequests_upload, wValues_upload]
    refine ⟨rfl, rfl, rfl, ?_⟩
    intro hp
    rw [range_mod_small _ hp, Nat.mod_eq_of_lt hp]
  · exact absurd hfin hn

/-- C2, witness: a file of 5000 bytes goes out as packets 0, 1, 2 and the terminal
request with value 3. -/
theorem send_file_value_fields_witness :
    readsFile (deviceOf (uploadScript 3) (some 5000)) (ascii "iBEC") 5000 ∧
    packetCount 5000 < 65536 ∧
    (fileRequests ((iDevice_send_file (deviceOf (uploadScript 3) (some 5000))
        (some someConnection) (some (ascii "iBEC")) State.init).2.trace.drop
          State.init.trace.length)).map (fun r => r.wValue)
      = List.range (packetCount 5000) ++ [packetCount 5000] :=
  ⟨by decide, by decide,
    (send_file_value_fields (deviceOf (uploadScript 3) (some 5000)) someConnection
      (ascii "iBEC") State.init 5000 (by decide) (by decide) (by decide)).2.2.2 (by decide)⟩

/-- C2, counterexample: a file of 134215681 bytes has 65536 packets; on a device that
accepts everything the terminal request, the last request of type 0x21, carries the value 0
and not 65536, so the value fields are not 0, ..., 65535 followed by 65536.  And for an
empty file, on a device that accepts everything, no request is issued at all, the
terminal one included. -/
theorem terminal_value_wraps_at_65536 :
    (packetCount 134215681 = 65536 ∧
    (iDevice_send_file (deviceOf (uploadScript 65536) (some 134215681)) (some someConnection)
      (some (ascii "iBEC")) State.init).1 = 0 ∧
    ((fileRequests (iDevice_send_file (deviceOf (uploadScript 65536) (some 134215681))
        (some someConnection) (some (ascii "iBEC")) State.init).2.trace).map
        (fun r => r.wValue)).getLast? = some 0 ∧
    (fileRequests (iDevice_send_file (deviceOf (uploadScript 65536) (some 134215681))
        (some someConnection) (some (ascii "iBEC")) State.init).2.trace).map
        (fun r => r.wValue)
      ≠ List.range 65536 ++ [65536]) ∧
    fileRequests (iDevice_send_file (deviceOf (uploadScript 0) (some 0)) (some someConnection)
      (some (ascii "iBEC")) State.init).2.trace = [] := by
  refine ⟨?_, by decide⟩
  have hp : packetCount 134215681 = 65536 := by decide
  have hread : readsFile (deviceOf (uploadScript 65536) (some 134215681)) (ascii "iBEC")
      134215681 := by decide
  have hpass := uploadScript_passes 65536 (some 134215681)
  have hrun := send_file_of_packetsPass (deviceOf (uploadScript 65536) (some 134215681))
    someConnection (ascii "iBEC") State.init 134215681 hread (by rw [hp]; exact hpass.1)
  rw [hp] at hrun
  rcases hrun with ⟨_, hs⟩ | ⟨hn, _⟩
  · have hlast : ((fileRequests (iDevice_send_file (deviceOf (uploadScript 65536)
          (some 134215681)) (some someConnection) (some (ascii "iBEC")) State.init).2.trace).map
          (fun r => r.wValue)).getLast? = some 0 := by
      rw [hs]
      show ((fileRequests ([] ++ (packetRounds 134215681 65536 65536
        ++ [checkup 65536, status_request, status_request]))).map
          (fun r => r.wValue)).getLast? = some 0
      rw [List.nil_append, fileRequests_upload, wValues_upload, List.getLast?_append]
      rfl
    refine ⟨hp, by rw [hs], hlast, ?_⟩
    intro h
    rw [h, List.getLast?_append] at hlast
    simp at hlast
  · exact absurd hpass.2 hn

/-- A file that is not found readable (no `stat`, no stream, or no item read, which is the
case of the empty file) makes the upload return -1 before any request is issued. -/
theorem send_file_not_readable (env : Env) (c : Connection) (path : CString) (st : State)
    (h : ∀ L, ¬ readsFile env path L) :
    ∃ m, iDevice_send_file env (some c) (some path) st
      = (-1, { st with out := st.out ++ [m] }) := by
  unfold iDevice_send_file
  cases hs : (env.files path).st_size with
  | none =>
    simp only [hs]
    exact ⟨_, rfl⟩
  | some L =>
    simp only [hs]
    by_cases ho : (env.files path).canOpen = false
    · rw [if_pos ho]
      exact ⟨_, rfl⟩
    · rw [if_neg ho]
      by_cases hr : fread L 1 (env.files path).avail = 0
      · rw [if_pos hr]
        exact ⟨_, rfl⟩
      · exact absurd ⟨hs, by simpa using ho, hr⟩ (h L)

/-- The requests issued so far after a status poll. -/
theorem request_status_trace (env : Env) (c : Connection) (flag : Int) (st : State) :
    (iDevice_request_status env (some c) flag st).2.trace = st.trace ++ [status_request] := by
  unfold iDevice_request_status
  simp only [DeviceRequest, printf]
  split
  · rfl
  · split <;> rfl

/-- The status poll only looks at the answer to its own request. -/
theorem request_status_congr (env env2 : Env) (c : Connection) (flag : Int) (st : State)
    (h : env2.script st.trace.length = env.script st.trace.length) :
    iDevice_request_status env2 (some c) flag st
      = iDevice_request_status env (some c) flag st := by
  unfold iDevice_request_status
  simp only [DeviceRequest, h]

/-- The packet loop only looks at the answers to the requests of its rounds. -/
theorem send_packets_congr (env env2 : Env) (c : Connection) (L p : Nat) :
    ∀ (n cur : Nat) (st : State),
      (∀ k, k < 2 * n → env2.script (st.trace.length + k) = env.script (st.trace.length + k)) →
      send_packets env2 (some c) L p n cur st = send_packets env (some c) L p n cur st := by
  intro n
  induction n with
  | zero => intro cur st _; rfl
  | succ n ih =>
    intro cur st h
    have h0 : env2.script st.trace.length = env.script st.trace.length := by
      simpa using h 0 (by omega)
    have h1 : iDevice_request_status env2 (some c) 5
          { st with trace := st.trace ++ [file_request L p cur] }
        = iDevice_request_status env (some c) 5
          { st with trace := st.trace ++ [file_request L p cur] } :=
      request_status_congr env env2 c 5 _ (by simpa using h 1 (by omega))
    rw [send_packets, send_packets]
    simp only [DeviceRequest, h0, h1]
    split
    · rfl
    · split
      · rfl
      · apply ih
        intro k hk
        rw [request_status_trace]
        have := h (k + 2) (by omega)
        simpa [Nat.add_assoc, Nat.add_comm 2 k] using this

/-- The part after the packet loop only looks at the answers to its two status polls. -/
theorem send_file_finish_congr (env env2 : Env) (c : Connection) (path : CString) (cur : Nat)
    (st : State) (h1 : env2.script (st.trace.length + 1) = env.script (st.trace.length + 1))
    (h2 : env2.script (st.trace.length + 2) = env.script (st.trace.length + 2)) :
    send_file_finish env2 (some c) path cur st = send_file_finish env (some c) path cur st := by
  have e6 : iDevice_request_status env2 (some c) 6
        { st with trace := st.trace ++ [checkup cur] }
      = iDevice_request_status env (some c) 6
        { st with trace := st.trace ++ [checkup cur] } :=
    request_status_congr env env2 c 6 _ (by simpa using h1)
  have e7 : iDevice_request_status env2 (some c) 7
        (iDevice_request_status env (some c) 6
          { st with trace := st.trace ++ [checkup cur] }).2
      = iDevice_request_status env (some c) 7
        (iDevice_request_status env (some c) 6
          { st with trace := st.trace ++ [checkup cur] }).2 :=
    request_status_congr env env2 c 7 _ (by
      rw [request_status_trace]
      simpa [Nat.add_assoc] using h2)
  unfold send_file_finish
  simp only [DeviceRequest, e6, e7]

/-- The whole result of the upload, value and state, only depends on the answers to the
requests other than the terminal one. -/
theorem send_file_congr (env env2 : Env) (c : Connection) (path : CString)
    (st : State) (L : Nat) (hread : readsFile env path L) (hfiles : env2.files = env.files)
    (hscript : ∀ n, n ≠ st.trace.length + 2 * packetCount L → env2.script n = env.script n) :
    iDevice_send_file env2 (some c) (some path) st
      = iDevice_send_file env (some c) (some path) st := by
  have hread2 : readsFile env2 path L := by
    unfold readsFile at hread ⊢
    rw [hfiles]
    exact hread
  have hp := packetCount_lt L
  rw [send_file_of_readsFile env c path st L hread,
    send_file_of_readsFile env2 c path st L hread2,
    send_packets_congr env env2 c L (packetCount L) (packetCount L) 0 st
      (fun k hk => hscript _ (by omega))]
  cases hsp : send_packets env (some c) L (packetCount L) (packetCount L) 0 st with
  | aborted st1 => rfl
  | finished cur st1 =>
    have hpass := send_packets_finished env c L (packetCount L) _ _ _ _ _ hsp
    rw [send_packets_pass env c L (packetCount L) (packetCount L) 0 st (by omega) hpass] at hsp
    cases hsp
    have hlen := rounds_length L (packetCount L) 0 (packetCount L)
    apply send_file_finish_congr
    · simp only [List.length_append, hlen]
      exact hscript _ (by omega)
    · simp only [List.length_append, hlen]
      exact hscript _ (by omega)

/-- When the status poll of packet `i` is the first request to fail, the loop returns
there. -/
theorem send_packets_status_fails (env : Env) (c : Connection) (L p : Nat) :
    ∀ (i n cur : Nat) (st : State), i < n → cur + n < 4294967296 →
      packetsPass env st.trace.length i →
      (env.script (st.trace.length + 2 * i)).ok = true →
      ¬ flagIs (env.script (st.trace.length + 2 * i + 1)) 5 →
      send_packets env (some c) L p n cur st
        = .aborted
            { st with
              trace := st.trace ++
                (List.range (i + 1)).flatMap
                  (fun k => [file_request L p (cur + k), status_request])
              out := st.out ++ [statusMessage (env.script (st.trace.length + 2 * i + 1))] } := by
  intro i
  induction i with
  | zero =>
    intro n cur st hin hlt _ hok hflag
    obtain ⟨m, rfl⟩ : ∃ m, n = m + 1 := ⟨n - 1, by omega⟩
    simp only [Nat.mul_zero, Nat.add_zero] at hok hflag
    have hflag2 : ¬ flagIs (env.script
        ({ st with trace := st.trace ++ [file_request L p cur] } : State).trace.length) 5 := by
      simpa using hflag
    rw [send_packets]
    simp only [DeviceRequest, hok, request_status_eq env c 5 5 rfl (by decide), hflag2]
    simp [statusMessage, List.range_succ]
  | succ i ih =>
    intro n cur st hin hlt hpass hok hflag
    obtain ⟨m, rfl⟩ : ∃ m, n = m + 1 := ⟨n - 1, by omega⟩
    have h0 := hpass 0 (by omega)
    simp only [Nat.mul_zero, Nat.add_zero] at h0
    have hcur : toUInt32 (cur + 1) = cur + 1 := by unfold toUInt32; omega
    have hflag0 : flagIs (env.script
        ({ st with trace := st.trace ++ [file_request L p cur] } : State).trace.length) 5 := by
      simpa using h0.2
    have e1 : st.trace.length + 2 * (i + 1) = st.trace.length + 1 + 1 + 2 * i := by omega
    have ihn := ih m (cur + 1)
      { st with trace := st.trace ++ [file_request L p cur] ++ [status_request] }
      (by omega) (by omega)
      (by
        have := packetsPass_tail env st.trace.length i hpass
        simpa [Nat.add_assoc] using this)
      (by
        rw [e1] at hok
        simpa [Nat.add_assoc] using hok)
      (by
        rw [e1] at hflag
        simpa [Nat.add_assoc] using hflag)
    rw [send_packets]
    simp only [DeviceRequest, h0.1, request_status_eq env c 5 5 rfl (by decide), hflag0, hcur]
    simp only [Bool.true_eq_false, if_false, if_true, ne_eq, not_true_eq_false]
    rw [ihn, roundsFrom_succ L p cur (i + 1)]
    simp [Nat.add_assoc, Nat.add_comm 1 i, e1]

/-- The part after the packet loop when its first status poll fails. -/
theorem send_file_finish_fails_6 (env : Env) (c : Connection) (path : CString) (cur : Nat)
    (st : State) (h6 : ¬ flagIs (env.script (st.trace.length + 1)) 6) :
    send_file_finish env (some c) path cur st
      = (-1, { st with
               trace := st.trace ++ [checkup cur, status_request]
               out := st.out ++ [statusMessage (env.script (st.trace.length + 1))] }) := by
  unfold send_file_finish
  simp only [DeviceRequest, request_status_eq env c 6 6 rfl (by decide),
    List.length_append, List.length_singleton]
  simp [h6, statusMessage]

/-- The part after the packet loop when its second status poll fails. -/
theorem send_file_finish_fails_7 (env : Env) (c : Connection) (path : CString) (cur : Nat)
    (st : State) (h6 : flagIs (env.script (st.trace.length + 1)) 6)
    (h7 : ¬ flagIs (env.script (st.trace.length + 2)) 7) :
    send_file_finish env (some c) path cur st
      = (-1, { st with
               trace := st.trace ++ [checkup cur, status_request, status_request]
               out := st.out ++ [statusMessage (env.script (st.trace.length + 2))] }) := by
  unfold send_file_finish
  simp only [DeviceRequest, request_status_eq env c 6 6 rfl (by decide),
    request_status_eq env c 7 7 rfl (by decide), List.length_append, List.length_singleton]
  simp [h6, h7, statusMessage]

/-- The upload when the status poll of packet `i` is the first request to fail. -/
theorem send_file_status_fails (env : Env) (c : Connection) (path : CString) (st : State)
    (L i : Nat) (hread : readsFile env path L) (hi : i < packetCount L)
    (hpass : packetsPass env st.trace.length i)
    (hok : (env.script (st.trace.length + 2 * i)).ok = true)
    (hflag : ¬ flagIs (env.script (st.trace.length + 2 * i + 1)) 5) :
    iDevice_send_file env (some c) (some path) st
      = (-1, { st with
               trace := st.trace ++ packetRounds L (packetCount L) (i + 1)
               out := st.out ++ [statusMessage (env.script (st.trace.length + 2 * i + 1))] }) := by
  have hp := packetCount_lt L
  rw [send_file_of_readsFile env c path st L hread,
    send_packets_status_fails env c L (packetCount L) i (packetCount L) 0 st hi (by omega)
      hpass hok hflag]
  simp only [Nat.zero_add]
  rfl

/-- The upload when every packet goes through and a finalization poll fails. -/
theorem send_file_finalization_fails (env : Env) (c : Connection) (path : CString)
    (st : State) (L : Nat) (hread : readsFile env path L)
    (hpass : packetsPass env st.trace.length (packetCount L)) :
    (¬ flagIs (env.script (st.trace.length + 2 * packetCount L + 1)) 6 →
      iDevice_send_file env (some c) (some path) st
        = (-1, { st with
                 trace := st.trace ++ (packetRounds L (packetCount L) (packetCount L)
                   ++ [checkup (packetCount L), status_request])
                 out := st.out ++
                   [statusMessage (env.script (st.trace.length + 2 * packetCount L + 1))] })) ∧
    (flagIs (env.script (st.trace.length + 2 * packetCount L + 1)) 6 →
      ¬ flagIs (env.script (st.trace.length + 2 * packetCount L + 2)) 7 →
      iDevice_send_file env (some c) (some path) st
        = (-1, { st with
                 trace := st.trace ++ (packetRounds L (packetCount L) (packetCount L)
                   ++ [checkup (packetCount L), status_request, status_request])
                 out := st.out ++
                   [statusMessage (env.script (st.trace.length + 2 * packetCount L + 2))] })) := by
  have hp := packetCount_lt L
  have hlen := rounds_length L (packetCount L) 0 (packetCount L)
  simp only [Nat.zero_add] at hlen
  rw [send_file_of_readsFile env c path st L hread,
    send_packets_pass env c L (packetCount L) (packetCount L) 0 st (by omega) hpass]
  simp only [Nat.zero_add]
  refine ⟨fun h6 => ?_, fun h6 h7 => ?_⟩
  · rw [send_file_finish_fails_6 env c path _ _
      (by simpa only [List.length_append, hlen] using h6)]
    simp [packetRounds, hlen]
  · rw [send_file_finish_fails_7 env c path _ _
      (by simpa only [List.length_append, hlen] using h6)
      (by simpa only [List.length_append, hlen] using h7)]
    simp [packetRounds, hlen]

/-- The upload when every request passes. -/
theorem send_file_all_pass (env : Env) (c : Connection) (path : CString) (st : State)
    (L : Nat) (hread : readsFile env path L)
    (hpass : packetsPass env st.trace.length (packetCount L))
    (hfin : finalizationPasses env st.trace.length (packetCount L)) :
    iDevice_send_file env (some c) (some path) st
      = (0, { st with
              trace := st.trace ++ (packetRounds L (packetCount L) (packetCount L)
                ++ [checkup (packetCount L), status_request, status_request])
              out := st.out ++ [Msg.fmtStr "Sent file %s\n" path] }) := by
  rcases send_file_of_packetsPass env c path st L hread hpass with ⟨_, hs⟩ | ⟨hn, _⟩
  · exact hs
  · exact absurd hfin hn

/-- C3, as amended: for every non-empty file found readable (`stat`, `fopen` and `fread`
succeed) and every behaviour of the device, `iDevice_send_file` returns 0 if and only if
every data-packet transfer succeeded, every per-packet status poll passed for flag 5, and
the two status polls issued after the terminal packet passed for flag 6 and then flag 7.
On success the requests issued are exactly the rounds (packet, status poll) of all packets
in order, then the terminal packet, then the two status polls.  On failure the function
returns -1 right after the first failing request: the transfer of a packet, the status
poll of a packet, the poll for flag 6 or the poll for flag 7.  The whole result, value
and requests issued, does not depend on the answer of the device to the terminal
request. -/
theorem send_file_success_iff (env : Env) (c : Connection) (path : CString) (st : State)
    (L : Nat) (hread : readsFile env path L) :
    ((iDevice_send_file env (some c) (some path) st).1 = 0 ↔
      packetsPass env st.trace.length (packetCount L) ∧
      finalizationPasses env st.trace.length (packetCount L)) ∧
    (packetsPass env st.trace.length (packetCount L) →
      finalizationPasses env st.trace.length (packetCount L) →
      iDevice_send_file env (some c) (some path) st
        = (0, { trace := st.trace ++ (packetRounds L (packetCount L) (packetCount L)
                  ++ [checkup (packetCount L), status_request, status_request])
                out := st.out ++ [Msg.fmtStr "Sent file %s\n" path]
                closed := st.closed
                resets := st.resets })) ∧
    (∀ i, i < packetCount L → packetsPass env st.trace.length i →
      (env.script (st.trace.length + 2 * i)).ok = false →
      iDevice_send_file env (some c) (some path) st
        = (-1, { trace := st.trace ++
                   (packetRounds L (packetCount L) i ++ [file_request L (packetCount L) i])
                 out := st.out ++
                   [Msg.fmtInt "Error: couldn't send packet %d\n" ((i + 1 : Nat) : Int)]
                 closed := st.closed
                 resets := st.resets })) ∧
    (∀ i, i < packetCount L → packetsPass env st.trace.length i →
      (env.script (st.trace.length + 2 * i)).ok = true →
      ¬ flagIs (env.script (st.trace.length + 2 * i + 1)) 5 →
      iDevice_send_file env (some c) (some path) st
        = (-1, { trace := st.trace ++ packetRounds L (packetCount L) (i + 1)
                 out := st.out ++ [statusMessage (env.script (st.trace.length + 2 * i + 1))]
                 closed := st.closed
                 resets := st.resets })) ∧
    (packetsPass env st.trace.length (packetCount L) →
      ¬ flagIs (env.script (st.trace.length + 2 * packetCount L + 1)) 6 →
      iDevice_send_file env (some c) (some path) st
        = (-1, { trace := st.trace ++ (packetRounds L (packetCount L) (packetCount L)
                   ++ [checkup (packetCount L), status_request])
                 out := st.out ++
                   [statusMessage (env.script (st.trace.length + 2 * packetCount L + 1))]
                 closed := st.closed
                 resets := st.resets })) ∧
    (packetsPass env st.trace.length (packetCount L) →
      flagIs (env.script (st.trace.length + 2 * packetCount L + 1)) 6 →
      ¬ flagIs (env.script (st.trace.length + 2 * packetCount L + 2)) 7 →
      iDevice_send_file env (some c) (some path) st
        = (-1, { trace := st.trace ++ (packetRounds L (packetCount L) (packetCount L)
                   ++ [checkup (packetCount L), status_request, status_request])
                 out := st.out ++
                   [statusMessage (env.script (st.trace.length + 2 * packetCount L + 2))]
                 closed := st.closed
                 resets := st.resets })) ∧
    (∀ r : Resp,
      iDevice_send_file
        { env with
          script := Function.update env.script (st.trace.length + 2 * packetCount L) r }
        (some c) (some path) st
        = iDevice_send_file env (some c) (some path) st) :=
  ⟨send_file_zero_iff env c path st L hread,
    fun hpass hfin => send_file_all_pass env c path st L hread hpass hfin,
    fun i hi hpass hfail => send_file_transfer_fails env c path st L i hread hi hpass hfail,
    fun i hi hpass hok hflag => send_file_status_fails env c path st L i hread hi hpass hok hflag,
    fun hpass h6 => (send_file_finalization_fails env c path st L hread hpass).1 h6,
    fun hpass h6 h7 => (send_file_finalization_fails env c path st L hread hpass).2 h6 h7,
    fun _ => send_file_congr env _ c path st L hread rfl
      (fun _ hn => Function.update_noteq hn _ _)⟩

/-- C3, witness: a file of 5000 bytes on a device that accepts everything except the
terminal request itself, whose transfer fails: the upload still returns 0, after three
rounds, the terminal packet and the two status polls. -/
theorem send_file_success_iff_witness :
    readsFile (deviceOf (failAt 6 (uploadScript 3)) (some 5000)) (ascii "iBEC") 5000 ∧
    packetsPass (deviceOf (failAt 6 (uploadScript 3)) (some 5000)) State.init.trace.length
      (packetCount 5000) ∧
    finalizationPasses (deviceOf (failAt 6 (uploadScript 3)) (some 5000))
      State.init.trace.length (packetCount 5000) ∧
    iDevice_send_file (deviceOf (failAt 6 (uploadScript 3)) (some 5000))
        (some someConnection) (some (ascii "iBEC")) State.init
      = (0, { trace := State.init.trace ++
                (packetRounds 5000 (packetCount 5000) (packetCount 5000)
                  ++ [checkup (packetCount 5000), status_request, status_request])
              out := State.init.out ++ [Msg.fmtStr "Sent file %s\n" (ascii "iBEC")]
              closed := State.init.closed
              resets := State.init.resets }) :=
  ⟨by decide, by decide, by decide,
    (send_file_success_iff (deviceOf (failAt 6 (uploadScript 3)) (some 5000)) someConnection
      (ascii "iBEC") State.init 5000 (by decide)).2.1 (by decide) (by decide)⟩

/-- C3, counterexample: the file exists, can be opened and is empty; no data packet is
due, and the device would pass the polls for flag 6 and flag 7; yet the function returns
-1, not 0. -/
theorem empty_payload_never_succeeds :
    ((deviceOf (uploadScript 0) (some 0)).files (ascii "iBEC")).st_size = some 0 ∧
    ((deviceOf (uploadScript 0) (some 0)).files (ascii "iBEC")).canOpen = true ∧
    packetsPass (deviceOf (uploadScript 0) (some 0)) State.init.trace.length (packetCount 0) ∧
    finalizationPasses (deviceOf (uploadScript 0) (some 0)) State.init.trace.length
      (packetCount 0) ∧
    (iDevice_send_file (deviceOf (uploadScript 0) (some 0)) (some someConnection)
      (some (ascii "iBEC")) State.init).1 ≠ 0 := by
  decide

/-- C4, as amended: for every file found readable and every packet index
`i < packetCount`, if packets 0 to i-1 and their status polls succeed and the transfer of
packet `i` fails, then `iDevice_send_file` returns -1 at once, its error message names the
packet by its one-based number `i + 1`, and the requests issued are exactly the `i` earlier
packets with their status polls and the transfer of packet `i`: no later packet, no resend,
no status poll and no terminal packet follow. -/
theorem send_file_packet_failure (env : Env) (c : Connection) (path : CString) (st : State)
    (L i : Nat) (hread : readsFile env path L) (hi : i < packetCount L)
    (hpass : packetsPass env st.trace.length i)
    (hfail : (env.script (st.trace.length + 2 * i)).ok = false) :
    iDevice_send_file env (some c) (some path) st
      = (-1, { trace := st.trace ++
                 (packetRounds L (packetCount L) i ++ [file_request L (packetCount L) i])
               out := st.out ++
                 [Msg.fmtInt "Error: couldn't send packet %d\n" ((i + 1 : Nat) : Int)]
               closed := st.closed
               resets := st.resets }) :=
  send_file_transfer_fails env c path st L i hread hi hpass hfail

/-- C4, witness: five packets, the transfer of packet index 2 fails. -/
theorem send_file_packet_failure_witness :
    readsFile (deviceOf (failAt 4 (uploadScript 5)) (some 10000)) (ascii "iBEC") 10000 ∧
    2 < packetCount 10000 ∧
    packetsPass (deviceOf (failAt 4 (uploadScript 5)) (some 10000)) State.init.trace.length 2 ∧
    ((deviceOf (failAt 4 (uploadScript 5)) (some 10000)).script
      (State.init.trace.length + 2 * 2)).ok = false ∧
    iDevice_send_file (deviceOf (failAt 4 (uploadScript 5)) (some 10000))
        (some someConnection) (some (ascii "iBEC")) State.init
      = (-1, { trace := State.init.trace ++
                 (packetRounds 10000 (packetCount 10000) 2
                   ++ [file_request 10000 (packetCount 10000) 2])
               out := State.init.out ++
                 [Msg.fmtInt "Error: couldn't send packet %d\n" ((2 + 1 : Nat) : Int)]
               closed := State.init.closed
               resets := State.init.resets }) :=
  ⟨by decide, by decide, by decide, by decide,
    send_file_packet_failure (deviceOf (failAt 4 (uploadScript 5)) (some 10000))
      someConnection (ascii "iBEC") State.init 10000 2 (by decide) (by decide) (by decide)
      (by decide)⟩

/-- C4, counterexample: the file has five packets and the transfer of packet index 2
fails; the function returns -1 after five requests, and the failure it reports names
packet 3, not packet 2. -/
theorem failed_packet_2_reported_as_3 :
    packetCount 10000 = 5 ∧
    (iDevice_send_file (deviceOf (failAt 4 (uploadScript 5)) (some 10000))
      (some someConnection) (some (ascii "iBEC")) State.init).1 = -1 ∧
    (iDevice_send_file (deviceOf (failAt 4 (uploadScript 5)) (some 10000))
      (some someConnection) (some (ascii "iBEC")) State.init).2.out
      = [Msg.fmtInt "Error: couldn't send packet %d\n" 3] ∧
    (iDevice_send_file (deviceOf (failAt 4 (uploadScript 5)) (some 10000))
      (some someConnection) (some (ascii "iBEC")) State.init).2.out
      ≠ [Msg.fmtInt "Error: couldn't send packet %d\n" 2] := by
  decide

/-- The upload of an empty file. -/
theorem empty_file_rejected (env : Env) (c : Connection) (path : CString) (st : State)
    (hstat : (env.files path).st_size = some 0) (hopen : (env.files path).canOpen = true) :
    iDevice_send_file env (some c) (some path) st
      = (-1, { st with out := st.out ++ [Msg.line "Couldn't create buffer\n"] }) := by
  unfold iDevice_send_file
  simp [hstat, hopen, fread, printf]

/-- C8, as amended: for an existing file of length 0 that can be opened,
`iDevice_send_file` prints "Couldn't create buffer" and returns -1 without issuing any
request, since `fread` reads no item of size 0: no terminal packet goes out and no status
check is made. -/
theorem send_file_empty (env : Env) (c : Connection) (path : CString) (st : State)
    (hstat : (env.files path).st_size = some 0) (hopen : (env.files path).canOpen = true) :
    iDevice_send_file env (some c) (some path) st
      = (-1, { trace := st.trace
               out := st.out ++ [Msg.line "Couldn't create buffer\n"]
               closed := st.closed
               resets := st.resets }) :=
  empty_file_rejected env c path st hstat hopen

/-- C8, witness: an empty file on a device that would accept the finalization. -/
theorem send_file_empty_witness :
    ((deviceOf (uploadScript 0) (some 0)).files (ascii "iBEC")).st_size = some 0 ∧
    ((deviceOf (uploadScript 0) (some 0)).files (ascii "iBEC")).canOpen = true ∧
    iDevice_send_file (deviceOf (uploadScript 0) (some 0)) (some someConnection)
        (some (ascii "iBEC")) State.init
      = (-1, { trace := State.init.trace
               out := State.init.out ++ [Msg.line "Couldn't create buffer\n"]
               closed := State.init.closed
               resets := State.init.resets }) :=
  ⟨rfl, rfl, send_file_empty (deviceOf (uploadScript 0) (some 0)) someConnection
    (ascii "iBEC") State.init rfl rfl⟩

/-- C8, counterexample: the file is empty and the device would pass both finalization
checks, yet the function returns -1 and has issued no request at all. -/
theorem empty_file_sends_nothing :
    packetCount 0 = 0 ∧
    finalizationPasses (deviceOf (uploadScript 0) (some 0)) 0 0 ∧
    (iDevice_send_file (deviceOf (uploadScript 0) (some 0)) (some someConnection)
      (some (ascii "iBEC")) State.init).1 = -1 ∧
    (iDevice_send_file (deviceOf (uploadScript 0) (some 0)) (some someConnection)
      (some (ascii "iBEC")) State.init).2.trace = [] := by
  decide

/-! ## The interactive loop (C9) -/

/-- The function `iDevice_send_command` returns, or ends the process with status 0. -/
theorem send_command_outcome (env : Env) (connection : Option Connection)
    (command : Option CString) (st : State) :
    (∃ a st1, iDevice_send_command env connection command st = .ret a st1) ∨
    (∃ st1, iDevice_send_command env connection command st = .exit 0 st1) := by
  unfold iDevice_send_command
  cases connection with
  | none => exact Or.inl ⟨_, _, rfl⟩
  | some c =>
    cases command with
    | none => exact Or.inl ⟨_, _, rfl⟩
    | some cmd =>
      simp only
      split
      · split
        · exact Or.inl ⟨_, _, rfl⟩
        · exact Or.inr ⟨_, rfl⟩
      · exact Or.inl ⟨_, _, rfl⟩

/-- The `-c` branch ends with exit status 0 whenever its mode check passes, whatever
`iDevice_open` and `iDevice_send_command` did. -/
theorem main_command_exit_status (env : Env) (argv : List CString) (fl : Flags) (st : State)
    (hfile : fl.file = 0) (hscript : fl.script = 0) (hshell : fl.shell = 0) :
    ∃ st1, main_command env argv fl st = .exit 0 st1 := by
  unfold main_command
  simp only [hfile, hscript, hshell, ne_eq, not_true_eq_false, or_self, if_false]
  generalize iDevice_open env _ st = o
  generalize (if o.1 = none then _ else o.2) = st1
  rcases send_command_outcome env o.1 argv[fl.command]? st1 with ⟨a, st2, h⟩ | ⟨st2, h⟩
  · rw [h]
    simp only [finish]
    by_cases hr : fl.reset = 0
    · simp [hr]
    · simp only [hr, ne_eq, not_false_eq_true, if_true]
      cases o.1 with
      | none => exact ⟨_, rfl⟩
      | some c => exact ⟨_, rfl⟩
  · rw [h]
    exact ⟨_, rfl⟩

/-- C10, evaluation of `main` for `ibootutil -c go`: with no device attached the process
prints "Couldn't open device @ 0x1281", sends nothing and ends with exit status 0; with a
device whose command transfer fails it prints "Error sending command" and ends with exit
status 0 as well; whereas `ibootutil -f iBEC` with no device attached ends with exit
status 1. -/
theorem main_command_exits_zero :
    main (unplugged (steady true 0) none) [ascii "ibootutil", ascii "-c", ascii "go"]
      = .exit 0 { trace := [], out := [Msg.fmtInt "Couldn't open device @ 0x%x\n" 0x1281],
                  closed := false, resets := 0 } ∧
    main (deviceOf (steady false 0) none) [ascii "ibootutil", ascii "-c", ascii "go"]
      = .exit 0 { trace := [{ bmRequestType := 0x40, bRequest := 0, wValue := 0, wIndex := 0,
                              wLength := 3, pData := .str (ascii "go"), wLenDone := 0 }],
                  out := [Msg.line "Error sending command\n"],
                  closed := true, resets := 0 } ∧
    main (unplugged (steady true 0) none) [ascii "ibootutil", ascii "-f", ascii "iBEC"]
      = .exit 1 { trace := [],
                  out := [Msg.fmtInt2 "Couldn't open device @ 0x%x or 0x%x\n" 0x1281 0x1227],
                  closed := false, resets := 0 } := by
  decide

/-! ## The packet plan, in general -/

/-- For files of at most (2^32 - 1) * 2048 bytes the packet count is the number of
2048-byte blocks needed. -/
theorem packetCount_eq_ceil (L : Nat) (hL : L ≤ 8796093020160) :
    packetCount L = (L + 2047) / 2048 := by
  have h1 : L / 2048 % 4294967296 = L / 2048 := Nat.mod_eq_of_lt (by omega)
  simp only [packetCount, toUInt32, packet_size, h1]
  split
  · rw [Nat.mod_eq_of_lt (by omega)]
    omega
  · omega

/-- Every packet but the last is declared with 2048 bytes. -/
theorem packetLength_inner (L i : Nat) (hi : i + 1 < packetCount L) :
    packetLength L (packetCount L) i = 2048 := by
  have hp := packetCount_lt L
  have : toUInt32 (i + 1) = i + 1 := by unfold toUInt32; omega
  simp [packetLength, this, hi, packet_size]

/-- The last packet is declared with `L % 2048` bytes, which is 0 for a file whose length
is a multiple of 2048. -/
theorem packetLength_last (L : Nat) (hp : 0 < packetCount L) :
    packetLength L (packetCount L) (packetCount L - 1) = L % 2048 := by
  have hlt := packetCount_lt L
  have : toUInt32 (packetCount L - 1 + 1) = packetCount L := by unfold toUInt32; omega
  simp [packetLength, this, packet_size]

/-- The `-f` branch ends with exit status 0 only after `iDevice_send_file` returned 0 on
an open connection. -/
theorem main_file_exit_zero (env : Env) (argv : List CString) (fl : Flags) (st st1 : State)
    (h : main_file env argv fl st = .exit 0 st1) :
    ∃ c st0, (iDevice_send_file env (some c) argv[fl.file]? st0).1 = 0 := by
  unfold main_file at h
  by_cases hmode : fl.command ≠ 0 ∨ fl.script ≠ 0 ∨ fl.shell ≠ 0
  · rw [if_pos hmode] at h
    simp at h
  · rw [if_neg hmode] at h
    simp only at h
    generalize (if fl.productID ≠ 0 then iDevice_open env _ st else _) = o at h
    by_cases h1 : fl.productID ≠ 0 ∧ o.1 = none
    · rw [if_pos h1] at h
      simp at h
    · rw [if_neg h1] at h
      by_cases h2 : o.1 = none
      · rw [if_pos h2] at h
        simp at h
      · rw [if_neg h2] at h
        by_cases h3 : (iDevice_send_file env o.1 argv[fl.file]? o.2).1 ≠ 0
        · rw [if_pos h3] at h
          simp at h
        · cases ho : o.1 with
          | none => exact absurd ho h2
          | some c =>
            rw [ho] at h3
            exact ⟨c, o.2, by simpa using h3⟩

end IBootUtil
